import Mathlib

/-!
# Debugger examples of PRRTE: termination tracker, rendezvous gate, launch strategy

Shallow embedding of `examples/debugger/direct.c` (the direct-launch debugger
front end, with its handlers `release_fn` and `notification_fn`), of the lock
macros, the query callback, the attach, the termination handler and the
directive arrays of `examples/debugger.c`, of the termination handler and the
target discovery of `examples/debugger/daemon.c`, and of the query handler
`_query` of `src/prted/pmix/pmix_server_queries.c`.

Conventions of the embedding

* A C string is the list of its characters before the terminating NUL.
* A pointer to a `myrel_t` is `Option Nat`: `none` is `NULL`, `some p` is the
  address `p`; the objects live in a heap `Nat → myrel_t`.
* The C type `int` of `count` and `exit_code` is `Int`.  Signed overflow is
  undefined in C, so the embedding describes the executions in which every
  `int` stays in range; `count` moves by one per call.
* Calls that leave the process (`cbfunc`, `pthread_cond_broadcast`,
  `PMIx_Spawn`, ...) are recorded, in order, in a list of effects.
* Where `main` of `direct.c` hands `value.data.string` of a capability item to
  `strstr` without a test and the item holds no string, the C program has no
  defined behaviour; the run of `main` then ends in `Outcome.undefined`.
-/

namespace Prrte

/-! ## C strings -/

/-- A C string: the characters before the terminating NUL. -/
abbrev CStr := List Char

/-- The test `0 == strcmp(a, b)`. -/
def strcmp_eq (a b : CStr) : Bool := a == b

/-- The test `0 == strncmp(a, b, n)`: the first `n` characters agree. -/
def strncmp_eq (a b : CStr) (n : Nat) : Bool := a.take n == b.take n

/-- The test `NULL != strstr(hay, needle)`: `needle` occurs in `hay` at some
offset.  The scan tries every offset of `hay` from left to right, the empty
suffix included. -/
def strstr_found : CStr → CStr → Bool
  | [], needle => needle.isPrefixOf []
  | c :: hay, needle => needle.isPrefixOf (c :: hay) || strstr_found hay needle

/-! ## Constants of the PMIx library header `pmix_common.h` -/

/-- Length bound of an info key (`PMIX_MAX_KEYLEN`). -/
def PMIX_MAX_KEYLEN : Nat := 511

/-- Status code `PMIX_SUCCESS`. -/
def PMIX_SUCCESS : Int := 0

/-- Status code `PMIX_EVENT_ACTION_COMPLETE`, the value handed to the event
chain by the last handler. -/
def PMIX_EVENT_ACTION_COMPLETE : Int := -334

/-- Key `PMIX_EVENT_RETURN_OBJECT`. -/
def PMIX_EVENT_RETURN_OBJECT : CStr := "pmix.evobject".toList

/-- Key `PMIX_EXIT_CODE`. -/
def PMIX_EXIT_CODE : CStr := "pmix.exit.code".toList

/-- Key `PMIX_EVENT_AFFECTED_PROC`. -/
def PMIX_EVENT_AFFECTED_PROC : CStr := "pmix.evproc".toList

/-- Key `PMIX_QUERY_SPAWN_SUPPORT`. -/
def PMIX_QUERY_SPAWN_SUPPORT : CStr := "pmix.qry.spawn".toList

/-- Key `PMIX_QUERY_DEBUG_SUPPORT`. -/
def PMIX_QUERY_DEBUG_SUPPORT : CStr := "pmix.qry.debug".toList

/-- Attribute `PMIX_COSPAWN_APP`, the co-spawn feature token. -/
def PMIX_COSPAWN_APP : CStr := "pmix.cospawn".toList

/-- Attribute `PMIX_DEBUG_STOP_ON_EXEC`, the stop-on-exec feature token. -/
def PMIX_DEBUG_STOP_ON_EXEC : CStr := "pmix.dbg.exec".toList

/-- Attribute `PMIX_DEBUG_STOP_IN_INIT`. -/
def PMIX_DEBUG_STOP_IN_INIT : CStr := "pmix.dbg.init".toList

/-- Attribute `PMIX_MAPBY`. -/
def PMIX_MAPBY : CStr := "pmix.mapby".toList

/-- Attribute `PMIX_FWD_STDOUT`. -/
def PMIX_FWD_STDOUT : CStr := "pmix.fwd.stdout".toList

/-- Attribute `PMIX_FWD_STDERR`. -/
def PMIX_FWD_STDERR : CStr := "pmix.fwd.stderr".toList

/-- Attribute `PMIX_NOTIFY_COMPLETION`. -/
def PMIX_NOTIFY_COMPLETION : CStr := "pmix.notecomp".toList

/-- Attribute `PMIX_REQUESTOR_IS_TOOL`. -/
def PMIX_REQUESTOR_IS_TOOL : CStr := "pmix.req.tool".toList

/-- Attribute `PMIX_DEBUGGER_DAEMONS`. -/
def PMIX_DEBUGGER_DAEMONS : CStr := "pmix.debugger".toList

/-- Attribute `PMIX_DEBUG_WAITING_FOR_NOTIFY`. -/
def PMIX_DEBUG_WAITING_FOR_NOTIFY : CStr := "pmix.dbg.waiting".toList

/-- Attribute `PMIX_DEBUG_JOB`. -/
def PMIX_DEBUG_JOB : CStr := "pmix.dbg.job".toList

/-- Status code `PMIX_ERR_NOT_FOUND`. -/
def PMIX_ERR_NOT_FOUND : Int := -46

/-- Status code `PMIX_ERR_BAD_PARAM`. -/
def PMIX_ERR_BAD_PARAM : Int := -27

/-- Status code `PMIX_QUERY_PARTIAL_SUCCESS`. -/
def PMIX_QUERY_PARTIAL_SUCCESS : Int := -52

/-- Status code `PMIX_ERR_UNREACH`. -/
def PMIX_ERR_UNREACH : Int := -25

/-- Status code `PMIX_ERR_LOST_CONNECTION_TO_SERVER`. -/
def PMIX_ERR_LOST_CONNECTION_TO_SERVER : Int := -101

/-- Status code `PMIX_ERR_JOB_TERMINATED`. -/
def PMIX_ERR_JOB_TERMINATED : Int := -145

/-- Status code `PMIX_LAUNCHER_READY`. -/
def PMIX_LAUNCHER_READY : Int := -155

/-- Attribute `PMIX_EVENT_CUSTOM_RANGE`. -/
def PMIX_EVENT_CUSTOM_RANGE : CStr := "pmix.evrange".toList

/-- Attribute `PMIX_EVENT_NON_DEFAULT`. -/
def PMIX_EVENT_NON_DEFAULT : CStr := "pmix.evnondef".toList

/-- Attribute `PMIX_DEBUG_JOB_DIRECTIVES`. -/
def PMIX_DEBUG_JOB_DIRECTIVES : CStr := "pmix.dbg.jdirs".toList

/-- Attribute `PMIX_DEBUG_APP_DIRECTIVES`. -/
def PMIX_DEBUG_APP_DIRECTIVES : CStr := "pmix.dbg.adirs".toList

/-! ## Data model -/

/-- The value union of a `pmix_info_t`, restricted to the members the
debugger examples read. -/
inductive pmix_value_t where
  | ptr (p : Option Nat)
  | integer (i : Int)
  | proc (nspace : CStr) (rank : Nat)
  | string (s : CStr)
  | data_array (size : Nat) (array_null : Bool)
  | bool (b : Bool)
  | string_null
  | uint16 (n : Nat)
  | undef
  deriving DecidableEq, Repr

/-- Member `value.data.ptr`; a value of another type holds no object. -/
def pmix_value_t.data_ptr : pmix_value_t → Option Nat
  | .ptr p => p
  | _ => none

/-- Member `value.data.integer`. -/
def pmix_value_t.data_integer : pmix_value_t → Int
  | .integer i => i
  | _ => 0

/-- Member `value.data.proc`, reduced to the namespace it names. -/
def pmix_value_t.data_proc : pmix_value_t → Option CStr
  | .proc ns _ => some ns
  | _ => none

/-- Member `value.data.string` of a value that holds a string.  For a `NULL`
string and for a value of another type the member is no string; the result
`[]` is never read there, because the only reader, the capability loop of
`main` of `direct.c`, is entered under `cap_strstr_defined` alone. -/
def pmix_value_t.data_string : pmix_value_t → CStr
  | .string s => s
  | _ => []

/-- The value is of string type and its pointer is not `NULL`, so that
`value.data.string` may be handed to `strstr`. -/
def pmix_value_t.holds_string : pmix_value_t → Bool
  | .string _ => true
  | _ => false

/-- One keyed value `pmix_info_t`. -/
structure pmix_info_t where
  key : CStr
  value : pmix_value_t
  deriving DecidableEq, Repr

/-- Modelled from the spec: the header `examples/debugger/debugger.h` with the
`mylock_t` of `direct.c` is missing; the gate is `{ active, result }` and the
tracker adds the countdown `count` that `direct.c` reads as `lock.count`. -/
structure mylock_t where
  active : Bool
  status : Int
  count : Int
  deriving DecidableEq, Repr

/-- The termination tracker `myrel_t` of `direct.c`. -/
structure myrel_t where
  lock : mylock_t
  nspace : Option CStr
  exit_code : Int
  exit_code_given : Bool
  deriving DecidableEq, Repr

/-- The file-scope variables of `direct.c` that `release_fn` reads, and the
memory holding the trackers. -/
structure World where
  client_nspace : CStr
  daemon_nspace : CStr
  stop_on_exec : Bool
  heap : Nat → myrel_t

/-- One entry `pmix_app_t` of a spawn request, with the members the examples
set. -/
structure pmix_app_t where
  cmd : CStr
  argv : List CStr
  maxprocs : Nat
  info : List pmix_info_t
  deriving DecidableEq, Repr

/-- Calls that are visible outside the function that makes them.  A
`spawn_args` entry holds the job-level directives and the application entries
of the `PMIx_Spawn` call recorded just before it. -/
inductive Effect where
  | broadcast (lock : Nat)
  | cbfunc (status : Int)
  | cospawn_launch
  | spawn_combined
  | spawn_app
  | spawn_daemon
  | register_termination
  | query_proctable
  | spawn_args (info : List pmix_info_t) (apps : List pmix_app_t)
  deriving DecidableEq, Repr

/-- Macro `DEBUG_WAKEUP_THREAD`: clear `active` (and broadcast). -/
def DEBUG_WAKEUP_THREAD (l : mylock_t) : mylock_t := { l with active := false }

/-! ## `release_fn` of `examples/debugger/direct.c` -/

/-- The locals of `release_fn` that the scan of the payload sets. -/
structure Scan where
  lock : Option Nat
  found : Bool
  exit_code : Int
  affected : Option CStr
  deriving DecidableEq, Repr

/-- Locals before the loop: `lock = NULL`, `found = false`, `affected = NULL`
(`exit_code` is read only when `found`). -/
def Scan.init : Scan := { lock := none, found := false, exit_code := 0, affected := none }

/-- One iteration of the loop over `info[n]` (lines 161-176). -/
def scan_step (s : Scan) (i : pmix_info_t) : Scan :=
  if strncmp_eq i.key PMIX_EVENT_RETURN_OBJECT PMIX_MAX_KEYLEN then
    { s with lock := i.value.data_ptr }
  else if strncmp_eq i.key PMIX_EXIT_CODE PMIX_MAX_KEYLEN then
    { s with exit_code := i.value.data_integer, found := true }
  else if strncmp_eq i.key PMIX_EVENT_AFFECTED_PROC PMIX_MAX_KEYLEN then
    { s with affected := i.value.data_proc }
  else s

/-- The loop `for (n=0; n < ninfo; n++)` of `release_fn`. -/
def scan_info (info : List pmix_info_t) : Scan := info.foldl scan_step Scan.init

/-- Lines 189-194: store the exit code when one was found and none is stored. -/
def capture_exit_code (s : Scan) (l : myrel_t) : myrel_t :=
  if s.found then
    if !l.exit_code_given then { l with exit_code := s.exit_code, exit_code_given := true }
    else l
  else l

/-- The test of lines 207-208 on the source namespace. -/
def nspace_matches (w : World) (source : CStr) : Bool :=
  strcmp_eq w.daemon_nspace source || strcmp_eq w.client_nspace source

/-- Lines 207-213: count down on a matching namespace, wake up at zero. -/
def count_down (w : World) (source : CStr) (l : myrel_t) : myrel_t :=
  if nspace_matches w source then
    if 0 = l.lock.count - 1 then
      { l with lock := DEBUG_WAKEUP_THREAD { l.lock with count := l.lock.count - 1 } }
    else { l with lock := { l.lock with count := l.lock.count - 1 } }
  else l

/-- The broadcast made by lines 207-213, if any. -/
def count_down_effects (w : World) (source : CStr) (p : Nat) (l : myrel_t) : List Effect :=
  if nspace_matches w source then
    if 0 = l.lock.count - 1 then [Effect.broadcast p] else []
  else []

/-- The call of `cbfunc` when it is not `NULL`. -/
def call_cbfunc (cbfunc : Bool) (status : Int) : List Effect :=
  if cbfunc then [Effect.cbfunc status] else []

/-- A termination event as `release_fn` receives it: the source namespace, the
payload `info[]` and whether `cbfunc` is non-`NULL`. -/
structure Event where
  source : CStr
  info : List pmix_info_t
  cbfunc : Bool
  deriving DecidableEq, Repr

/-- Function `release_fn` of `direct.c` (lines 142-220). -/
def release_fn (w : World) (e : Event) : World × List Effect :=
  let s := scan_info e.info
  match s.lock with
  | none => (w, call_cbfunc e.cbfunc PMIX_SUCCESS)
  | some p =>
    let l1 := capture_exit_code s (w.heap p)
    let l2 := count_down w e.source l1
    ({ w with heap := Function.update w.heap p l2 },
      count_down_effects w e.source p l1 ++ call_cbfunc e.cbfunc PMIX_EVENT_ACTION_COMPLETE)

/-- A sequence of `release_fn` calls, one per delivered event. -/
def deliver : World → List Event → World × List Effect
  | w, [] => (w, [])
  | w, e :: es =>
    let r := release_fn w e
    let r2 := deliver r.1 es
    (r2.1, r.2 ++ r2.2)

/-- Number of events of the sequence whose source namespace passes the filter. -/
def matching (w : World) (es : List Event) : Nat :=
  (es.filter (fun e => nspace_matches w e.source)).length

/-- Number of wake-ups of the gate of tracker `p` among the effects. -/
def wakeups (p : Nat) (fx : List Effect) : Nat := fx.count (Effect.broadcast p)

/-- The event carries the return object `p`. -/
def carries (p : Nat) (e : Event) : Prop := (scan_info e.info).lock = some p

instance (p : Nat) (e : Event) : Decidable (carries p e) :=
  inferInstanceAs (Decidable ((scan_info e.info).lock = some p))

/-! ## The rendezvous gate of `examples/debugger.c` -/

namespace Debugger

/-- The gate `mylock_t` of `examples/debugger.c` (lines 35-40); the mutex and
the condition variable carry no data. -/
structure mylock_t where
  active : Bool
  status : Int
  deriving DecidableEq, Repr

/-- Macro `DEBUG_CONSTRUCT_LOCK` (lines 42-48). -/
def DEBUG_CONSTRUCT_LOCK (_l : mylock_t) : mylock_t :=
  { active := true, status := PMIX_SUCCESS }

/-- Macro `DEBUG_WAKEUP_THREAD` (lines 65-71). -/
def DEBUG_WAKEUP_THREAD (l : mylock_t) : mylock_t := { l with active := false }

/-- Macro `DEBUG_WAIT_THREAD` (lines 56-63).  Each entry of `others` is what
the other threads do to the gate during one `pthread_cond_wait`; the result is
the number of loop iterations and the gate the waiter sees on leaving the
loop, or `none` when the waiter is still blocked after the last entry. -/
def DEBUG_WAIT_THREAD : List (mylock_t → mylock_t) → mylock_t → Option (Nat × mylock_t)
  | [], l => if l.active then none else some (0, l)
  | f :: others, l =>
    if l.active then (DEBUG_WAIT_THREAD others (f l)).map (fun r => (r.1 + 1, r.2))
    else some (0, l)

/-- Function `evhandler_reg_callbk` of `examples/debugger.c` (lines 230-242). -/
def evhandler_reg_callbk (status : Int) (lock : mylock_t) : mylock_t :=
  DEBUG_WAKEUP_THREAD { lock with status := status }

end Debugger

/-! ## `main`, `cospawn_launch` and `spawn_debugger` of `examples/debugger/direct.c` -/

/-- Modelled from the spec: the macro `DEBUG_CONSTRUCT_LOCK` of the missing
header `examples/debugger/debugger.h`; `construct()` initializes the gate to
the active state, with the success status and nothing counted yet. -/
def DEBUG_CONSTRUCT_LOCK (_l : mylock_t) : mylock_t :=
  { active := true, status := PMIX_SUCCESS, count := 0 }

/-- Function `evhandler_reg_callbk` of `direct.c` (lines 229-243). -/
def evhandler_reg_callbk (status : Int) (lock : mylock_t) : mylock_t :=
  DEBUG_WAKEUP_THREAD { lock with status := status }

/-- The tests on `argv[i]` for the help option (lines 496-497). -/
def is_help (a : CStr) : Bool := strcmp_eq a "-h".toList || strcmp_eq a "--help".toList

/-- The tests on `argv[i]` for the co-spawn option (lines 505-506). -/
def is_cospawn (a : CStr) : Bool := strcmp_eq a "-c".toList || strcmp_eq a "--cospawn".toList

/-- The loop over `argv[i]` (lines 495-510): `none` is the `exit(0)` after the
usage message, `some b` is the value of `cospawn_reqd` after the loop. -/
def parse_args_loop : List CStr → Option Bool
  | [] => some false
  | a :: rest =>
    if is_help a then none
    else if is_cospawn a then some true
    else parse_args_loop rest

/-- The argument loop of `main`, which starts at `argv[1]`. -/
def parse_args (argv : List CStr) : Option Bool := parse_args_loop argv.tail

/-- One iteration of the loop over the capability answer (lines 596-614); the
state is the pair `(cospawn, stop_on_exec)`. -/
def cap_step (st : Bool × Bool) (i : pmix_info_t) : Bool × Bool :=
  if strcmp_eq i.key PMIX_QUERY_SPAWN_SUPPORT then
    (strstr_found i.value.data_string PMIX_COSPAWN_APP, st.2)
  else if strcmp_eq i.key PMIX_QUERY_DEBUG_SUPPORT then
    (st.1, strstr_found i.value.data_string PMIX_DEBUG_STOP_ON_EXEC)
  else st

/-- The loop of lines 596-614, from `cospawn = false` and the current
`stop_on_exec`. -/
def cap_scan (info : List pmix_info_t) (stop_on_exec : Bool) : Bool × Bool :=
  info.foldl cap_step (false, stop_on_exec)

/-- The argument of the `strstr` call that one iteration of the loop of lines
596-614 makes is a string: lines 599 and 607 pass `value.data.string` of an
item with one of the two capability keys without a test of its type or for
`NULL` (an item with another key is not read). -/
def cap_step_defined (i : pmix_info_t) : Bool :=
  if strcmp_eq i.key PMIX_QUERY_SPAWN_SUPPORT then i.value.holds_string
  else if strcmp_eq i.key PMIX_QUERY_DEBUG_SUPPORT then i.value.holds_string
  else true

/-- Every `strstr` call of the loop of lines 596-614 is defined; the loop has
no early exit, so it visits every item of the answer. -/
def cap_strstr_defined (info : List pmix_info_t) : Bool := info.all cap_step_defined

/-- What the resource manager answers to the calls of `main`. -/
structure Env where
  tool_init_rc : Int
  cap_query_rc : Int
  cap_info : List pmix_info_t
  spawn_rc : Int
  spawn_nspace : CStr
  app_reg_status : Int
  pt_query_rc : Int
  pt_status : Int
  pt_info : List pmix_info_t
  daemon_spawn_rc : Int
  daemon_spawn_nspace : CStr
  daemon_reg_status : Int
  cospawn_reg_status : Int

/-- How a run of `main` ends: `exit(code)`, `return` without the final wait,
the final `DEBUG_WAIT_THREAD(&myrel.lock)` after which `rc` is returned, or
`undefined` when the run has made a call whose behaviour C does not define
(`strstr` on a capability value that holds no string); nothing is known of
such a run from that call on. -/
inductive Outcome where
  | exited (code : Int)
  | returned (code : Int)
  | waits (rc : Int)
  | undefined
  deriving DecidableEq, Repr

/-- A run of `main` up to its end or its final wait. -/
structure Run where
  world : World
  effects : List Effect
  outcome : Outcome

/-- The statement `myrel->lock.count = c`. -/
def set_count (w : World) (p : Nat) (c : Int) : World :=
  { w with
    heap := Function.update w.heap p
              { (w.heap p) with lock := { (w.heap p).lock with count := c } } }

/-- The statement `myrel->lock.count++` (lines 456 and 681). -/
def count_incr (w : World) (p : Nat) : World := set_count w p ((w.heap p).lock.count + 1)

/-- The statement `myrel->nspace = strdup(ns)`. -/
def set_nspace (w : World) (p : Nat) (ns : CStr) : World :=
  { w with heap := Function.update w.heap p { (w.heap p) with nspace := some ns } }

/-- The macro call `PMIX_INFO_LOAD(&info, key, NULL, PMIX_BOOL)`: a flag that
is set. -/
def info_flag (key : CStr) : pmix_info_t := { key := key, value := pmix_value_t.bool true }

/-- The macro call `PMIX_INFO_LOAD(&info, key, s, PMIX_STRING)`. -/
def info_string (key : CStr) (s : CStr) : pmix_info_t :=
  { key := key, value := pmix_value_t.string s }

/-- The pause-point directive chosen by the tests `if (stop_on_exec)` of lines
295-303 and 642-648. -/
def pause_directive (stop_on_exec : Bool) : pmix_info_t :=
  if stop_on_exec then info_flag PMIX_DEBUG_STOP_ON_EXEC
  else info_flag PMIX_DEBUG_STOP_IN_INIT

/-- The job-level directives of the combined spawn (lines 261-274). -/
def cospawn_info : List pmix_info_t :=
  [info_flag PMIX_FWD_STDOUT, info_flag PMIX_FWD_STDERR, info_flag PMIX_REQUESTOR_IS_TOOL,
    info_string PMIX_MAPBY "slot".toList]

/-- The two entries of the combined spawn (lines 279-328): the application and
the daemon. -/
def cospawn_apps (w : World) : List pmix_app_t :=
  [ { cmd := "./hello".toList, argv := ["./hello".toList], maxprocs := 2,
      info := [pause_directive w.stop_on_exec] },
    { cmd := "./daemon".toList, argv := ["./daemon".toList], maxprocs := 1,
      info := [info_flag PMIX_DEBUGGER_DAEMONS, info_flag PMIX_NOTIFY_COMPLETION,
        info_flag PMIX_DEBUG_WAITING_FOR_NOTIFY] } ]

/-- The job-level directives of the application spawn of `main` (lines
636-657). -/
def app_spawn_info (w : World) : List pmix_info_t :=
  [info_string PMIX_MAPBY "slot".toList, pause_directive w.stop_on_exec,
    info_flag PMIX_FWD_STDOUT, info_flag PMIX_FWD_STDERR, info_flag PMIX_NOTIFY_COMPLETION]

/-- The application entry of the application spawn of `main` (lines 622-634). -/
def app_spawn_apps : List pmix_app_t :=
  [ { cmd := "./hello".toList, argv := ["./hello".toList], maxprocs := 2, info := [] } ]

/-- The directives of the daemon spawn of `spawn_debugger` (lines 398-429). -/
def daemon_spawn_info (appspace : CStr) : List pmix_info_t :=
  [info_string PMIX_MAPBY "ppr:1:node".toList, info_flag PMIX_DEBUGGER_DAEMONS,
    info_string PMIX_DEBUG_JOB appspace, info_flag PMIX_NOTIFY_COMPLETION,
    info_flag PMIX_DEBUG_WAITING_FOR_NOTIFY, info_flag PMIX_FWD_STDOUT,
    info_flag PMIX_FWD_STDERR]

/-- The entry of the daemon spawn of `spawn_debugger` (lines 382-395). -/
def daemon_spawn_apps : List pmix_app_t :=
  [ { cmd := "./daemon".toList, argv := ["./daemon".toList], maxprocs := 1, info := [] } ]

/-- Function `cospawn_launch` (lines 245-366): the world after the call, the
calls made and the returned `rc`.  The status of the registration
acknowledgment stays in the local `mylock` and is not read. -/
def cospawn_launch (w : World) (myrel : Nat) (env : Env) : World × List Effect × Int :=
  let w1 : World := { w with client_nspace := env.spawn_nspace }
  let w2 := set_count w1 myrel 1
  let w3 := set_nspace w2 myrel w2.client_nspace
  let args := Effect.spawn_args cospawn_info (cospawn_apps w)
  if PMIX_SUCCESS ≠ env.spawn_rc then (w3, [Effect.spawn_combined, args], env.spawn_rc)
  else
    let w4 : World := { w3 with daemon_nspace := w3.client_nspace }
    (w4, [Effect.spawn_combined, args, Effect.register_termination], env.spawn_rc)

/-- Function `spawn_debugger` (lines 368-469), called with `appspace`
pointing to `client_nspace`. -/
def spawn_debugger (w : World) (myrel : Nat) (env : Env) : World × List Effect × Int :=
  let w1 : World := { w with daemon_nspace := env.daemon_spawn_nspace }
  let args := Effect.spawn_args (daemon_spawn_info w.client_nspace) daemon_spawn_apps
  if PMIX_SUCCESS ≠ env.daemon_spawn_rc then
    (w1, [Effect.spawn_daemon, args], env.daemon_spawn_rc)
  else
    let w2 := set_nspace w1 myrel w1.daemon_nspace
    let w3 := count_incr w2 myrel
    (w3, [Effect.spawn_daemon, args, Effect.register_termination], env.daemon_reg_status)

/-- The application registration of `main` (lines 662-691) once `PMIx_Spawn`
has returned the namespace: the `count++` of line 681 and the registration. -/
def register_app (w : World) (myrel : Nat) : World := count_incr w myrel

/-- The `else` branch of `main` (lines 620-761): separate launches.  The
status of the application registration is assigned to `rc` (line 689) and
overwritten by `PMIX_ARGV_APPEND(rc, ...)` and by the proctable query before
it is read, so after the query call `rc` is the status of that call. -/
def separate_spawn (w : World) (myrel : Nat) (env : Env) : Run :=
  let w1 : World := { w with client_nspace := env.spawn_nspace }
  let args := Effect.spawn_args (app_spawn_info w) app_spawn_apps
  if PMIX_SUCCESS ≠ env.spawn_rc then
    { world := w1, effects := [Effect.spawn_app, args],
      outcome := Outcome.returned env.spawn_rc }
  else
    let w2 := register_app w1 myrel
    let fx := [Effect.spawn_app, args, Effect.register_termination, Effect.query_proctable]
    if PMIX_SUCCESS ≠ env.pt_query_rc then
      { world := w2, effects := fx, outcome := Outcome.returned env.pt_query_rc }
    else if PMIX_SUCCESS ≠ env.pt_status then
      { world := w2, effects := fx, outcome := Outcome.returned env.pt_query_rc }
    else
      match env.pt_info with
      | [] => { world := w2, effects := fx, outcome := Outcome.returned env.pt_query_rc }
      | i :: _ =>
        match i.value with
        | pmix_value_t.data_array _ array_null =>
          if array_null then
            { world := w2, effects := fx, outcome := Outcome.returned env.pt_query_rc }
          else
            let r := spawn_debugger w2 myrel env
            if PMIX_SUCCESS ≠ r.2.2 then
              { world := r.1, effects := fx ++ r.2.1, outcome := Outcome.returned r.2.2 }
            else
              { world := r.1, effects := fx ++ r.2.1, outcome := Outcome.waits r.2.2 }
        | _ => { world := w2, effects := fx, outcome := Outcome.returned (-1) }

/-- The address of the local `myrel` of `main`. -/
def myrel_addr : Nat := 0

/-- The file-scope variables at program start (zero-initialised) over a given
memory. -/
def World.start (heap : Nat → myrel_t) : World :=
  { client_nspace := [], daemon_nspace := [], stop_on_exec := false, heap := heap }

/-- Function `main` of `direct.c` (lines 471-771), from the memory `heap`
that holds the not yet initialised local `myrel`.  The capability loop is run
when each of its `strstr` calls is defined; otherwise the run is undefined from
the loop on. -/
def main (argv : List CStr) (env : Env) (heap : Nat → myrel_t) : Run :=
  let w0 := World.start heap
  match parse_args argv with
  | none => { world := w0, effects := [], outcome := Outcome.exited 0 }
  | some cospawn_reqd =>
    if PMIX_SUCCESS ≠ env.tool_init_rc then
      { world := w0, effects := [], outcome := Outcome.exited env.tool_init_rc }
    else
      let w1 : World :=
        { w0 with
          heap := Function.update w0.heap myrel_addr
                    { (w0.heap myrel_addr) with
                      lock := DEBUG_CONSTRUCT_LOCK (w0.heap myrel_addr).lock } }
      if PMIX_SUCCESS ≠ env.cap_query_rc then
        { world := w1, effects := [], outcome := Outcome.returned env.cap_query_rc }
      else if 2 ≠ env.cap_info.length then
        { world := w1, effects := [], outcome := Outcome.returned env.cap_query_rc }
      else if !cap_strstr_defined env.cap_info then
        { world := w1, effects := [], outcome := Outcome.undefined }
      else
        let caps := cap_scan env.cap_info w1.stop_on_exec
        let w2 : World := { w1 with stop_on_exec := caps.2 }
        if caps.1 && cospawn_reqd then
          let r := cospawn_launch w2 myrel_addr env
          { world := r.1, effects := Effect.cospawn_launch :: r.2.1,
            outcome := Outcome.waits env.cap_query_rc }
        else
          let r := separate_spawn w2 myrel_addr env
          { world := r.world, effects := r.effects, outcome := r.outcome }

/-- The run takes the CoSpawn path: `cospawn_launch` is called and no
separate application spawn is issued. -/
def takes_cospawn (r : Run) : Prop :=
  Effect.cospawn_launch ∈ r.effects ∧ Effect.spawn_app ∉ r.effects

instance (r : Run) : Decidable (takes_cospawn r) :=
  inferInstanceAs (Decidable (Effect.cospawn_launch ∈ r.effects ∧ Effect.spawn_app ∉ r.effects))

/-- The run takes the SeparateSpawn path: the application is spawned by its
own `PMIx_Spawn` and `cospawn_launch` is not called. -/
def takes_separate (r : Run) : Prop :=
  Effect.spawn_app ∈ r.effects ∧ Effect.cospawn_launch ∉ r.effects

instance (r : Run) : Decidable (takes_separate r) :=
  inferInstanceAs (Decidable (Effect.spawn_app ∈ r.effects ∧ Effect.cospawn_launch ∉ r.effects))

/-- The run issues a spawn request of some kind. -/
def issues_spawn (r : Run) : Prop :=
  Effect.cospawn_launch ∈ r.effects ∨ Effect.spawn_combined ∈ r.effects ∨
    Effect.spawn_app ∈ r.effects ∨ Effect.spawn_daemon ∈ r.effects

instance (r : Run) : Decidable (issues_spawn r) :=
  inferInstanceAs (Decidable (Effect.cospawn_launch ∈ r.effects ∨
    Effect.spawn_combined ∈ r.effects ∨ Effect.spawn_app ∈ r.effects ∨
    Effect.spawn_daemon ∈ r.effects))

/-- The tokens of a comma-delimited list, in the words of the specification
of the capability answer ("a delimited list of supported feature tokens"). -/
def spec_tokens : CStr → List CStr
  | [] => [[]]
  | c :: rest =>
    if c = ',' then [] :: spec_tokens rest
    else
      match spec_tokens rest with
      | [] => [[c]]
      | t :: ts => (c :: t) :: ts

/-- The world of the SeparateSpawn path once both termination registrations
are made: `PMIx_Spawn` has stored the application namespace `A` in
`client_nspace`, `main` has counted the application registration and
`spawn_debugger` has spawned the daemon and counted its registration. -/
def after_registrations (w : World) (myrel : Nat) (env : Env) (A : CStr) : World :=
  (spawn_debugger (register_app { w with client_nspace := A } myrel) myrel env).1

/-! ## The end of `main` of `direct.c` -/

/-- The value with which `main` ends once the termination events `events`
have been delivered to `release_fn`: the argument of `exit`, the `rc`
returned through `done`, or, from the final wait, `rc` when the gate of
`myrel` has been released; `none` while `main` is still blocked in
`DEBUG_WAIT_THREAD(&myrel.lock)` (lines 765-770), and for a run without
defined behaviour. -/
def main_returns (r : Run) (events : List Event) : Option Int :=
  match r.outcome with
  | Outcome.exited c => some c
  | Outcome.returned c => some c
  | Outcome.waits rc =>
    if ((deliver r.world events).1.heap myrel_addr).lock.active then none else some rc
  | Outcome.undefined => none

/-- The directives and entries of the first `PMIx_Spawn` call of a trace. -/
def first_spawn_args : List Effect → Option (List pmix_info_t × List pmix_app_t)
  | [] => none
  | Effect.spawn_args info apps :: _ => some (info, apps)
  | _ :: rest => first_spawn_args rest

/-- The directives that a spawn request attaches to its first entry, the
application: the job-level ones and those of the entry itself. -/
def app_directives (args : List pmix_info_t × List pmix_app_t) : List pmix_info_t :=
  args.1 ++ (match args.2 with
    | [] => []
    | a :: _ => a.info)

/-- The directive list holds an entry with the key `key`. -/
def has_key (key : CStr) (l : List pmix_info_t) : Bool := l.any (fun i => i.key == key)

/-! ## `query_cbfunc` of `direct.c` and `cbfunc` of `examples/debugger.c` -/

/-- Calls made by the query callbacks. -/
inductive QueryCall where
  | release_fn
  | broadcast
  deriving DecidableEq, Repr

/-- The macro `PMIX_INFO_CREATE(m, n)`: `n` cleared entries. -/
def PMIX_INFO_CREATE (n : Nat) : List pmix_info_t :=
  List.replicate n { key := [], value := pmix_value_t.undef }

/-- The macro `PMIX_INFO_XFER(d, s)`: the key and the value of `s`. -/
def PMIX_INFO_XFER (s : pmix_info_t) : pmix_info_t := { key := s.key, value := s.value }

/-- The loop `for (n=0; n < ninfo; n++) PMIX_INFO_XFER(&mq->info[n], &info[n])`
from index `n` on: `src` holds the delivered entries not yet copied. -/
def xfer_loop : Nat → List pmix_info_t → List pmix_info_t → List pmix_info_t
  | _, [], dst => dst
  | n, i :: rest, dst => xfer_loop (n + 1) rest (dst.set n (PMIX_INFO_XFER i))

/-- The query result `myquery_data_t` of `direct.c`; `info` is `none` for a
`NULL` pointer. -/
structure myquery_data_t where
  lock : mylock_t
  status : Int
  info : Option (List pmix_info_t)
  ninfo : Nat
  deriving DecidableEq, Repr

/-- Function `query_cbfunc` of `direct.c` (lines 55-88); `release_fn` tells
whether the library supplied a release function. -/
def query_cbfunc (status : Int) (info : List pmix_info_t) (release_fn : Bool)
    (mq : myquery_data_t) : myquery_data_t × List QueryCall :=
  ({ lock := DEBUG_WAKEUP_THREAD mq.lock,
     status := status,
     info := if 0 < info.length then some (xfer_loop 0 info (PMIX_INFO_CREATE info.length))
             else mq.info,
     ninfo := if 0 < info.length then info.length else mq.ninfo },
   (if release_fn then [QueryCall.release_fn] else []) ++ [QueryCall.broadcast])

namespace Debugger

/-- The query result `myquery_data_t` of `examples/debugger.c` (lines 75-80). -/
structure myquery_data_t where
  lock : mylock_t
  status : Int
  info : Option (List pmix_info_t)
  ninfo : Nat
  deriving DecidableEq, Repr

/-- Function `cbfunc` of `examples/debugger.c` (lines 107-137). -/
def cbfunc (status : Int) (info : List pmix_info_t) (release_fn : Bool)
    (mq : myquery_data_t) : myquery_data_t × List QueryCall :=
  ({ lock := DEBUG_WAKEUP_THREAD mq.lock,
     status := status,
     info := if 0 < info.length then some (xfer_loop 0 info (PMIX_INFO_CREATE info.length))
             else mq.info,
     ninfo := if 0 < info.length then info.length else mq.ninfo },
   (if release_fn then [QueryCall.release_fn] else []) ++ [QueryCall.broadcast])

/-- What the resource manager answers to the namespace query of
`attach_to_running_job`: the status of the call, and the status and items
handed to `cbfunc`. -/
structure QueryAnswer where
  query_rc : Int
  status : Int
  items : List pmix_info_t
  release_fn : Bool

/-- Function `attach_to_running_job` of `examples/debugger.c` (lines 701-733,
the part that is compiled); `q0` is the content of the freshly allocated `q`.
The argument `nspace` is not read. -/
def attach_to_running_job (_nspace : CStr) (ans : QueryAnswer) (q0 : myquery_data_t) : Int :=
  if PMIX_SUCCESS ≠ ans.query_rc then -1
  else
    match (cbfunc ans.status ans.items ans.release_fn q0).1.info with
    | none => -1
    | some [] => -1
    | some (i :: _) =>
      match i.value with
      | pmix_value_t.string _ => 0
      | pmix_value_t.string_null => -1
      | _ => -1

/-- The attach branch of `main` of `examples/debugger.c` (lines 390-398): on
a non-success status `goto done` and `return(rc)`, else `goto rundebugger` and
wait there. -/
def main_attach (nspace : CStr) (ans : QueryAnswer) (q0 : myquery_data_t) : Outcome :=
  if PMIX_SUCCESS ≠ attach_to_running_job nspace ans q0 then
    Outcome.returned (attach_to_running_job nspace ans q0)
  else Outcome.waits (attach_to_running_job nspace ans q0)

end Debugger

/-- The namespace `t` is an element of the comma-delimited list `answer`, in
the words of the specification ("requested namespace ∈ known set"). -/
def spec_nspace_known (t : CStr) (answer : CStr) : Prop := t ∈ spec_tokens answer

instance (t answer : CStr) : Decidable (spec_nspace_known t answer) :=
  inferInstanceAs (Decidable (t ∈ spec_tokens answer))

/-! ## `release_fn` and `main` of `examples/debugger/daemon.c` -/

namespace Daemon

/-- Lines 100-144 of `release_fn`: the scan of the payload (the same loop as
in `direct.c`), the exit code, the completion callback and the wake-up. -/
def release_fn_rest (heap : Nat → myrel_t) (e : Event) : (Nat → myrel_t) × List Effect :=
  match (scan_info e.info).lock with
  | none => (heap, call_cbfunc e.cbfunc PMIX_SUCCESS)
  | some p =>
    (Function.update heap p
      { lock := DEBUG_WAKEUP_THREAD (heap p).lock,
        nspace := (heap p).nspace,
        exit_code := if (scan_info e.info).found then (scan_info e.info).exit_code
                     else (heap p).exit_code,
        exit_code_given := if (scan_info e.info).found then true
                           else (heap p).exit_code_given },
     call_cbfunc e.cbfunc PMIX_EVENT_ACTION_COMPLETE ++ [Effect.broadcast p])

/-- Function `release_fn` of `daemon.c` (lines 74-145) with the file-scope
`target_namespace`.  In the test of lines 92-99 the `return` stands inside
`if (NULL != cbfunc)`. -/
def release_fn (target_namespace : CStr) (heap : Nat → myrel_t) (e : Event) :
    (Nat → myrel_t) × List Effect :=
  if !strcmp_eq target_namespace e.source then
    if e.cbfunc then (heap, [Effect.cbfunc PMIX_EVENT_ACTION_COMPLETE])
    else release_fn_rest heap e
  else release_fn_rest heap e

/-- The calls of `main` of `daemon.c` that leave the process. -/
inductive Call where
  | register_default
  | get_debug_job
  | get_local_rank
  | register_termination
  | query_local_proctable
  | notify_release
  | wait_termination
  | tool_finalize
  deriving DecidableEq, Repr

/-- What the resource manager answers to the calls of `main` of `daemon.c`;
a value pointer is `none` when it is `NULL`. -/
structure Env where
  myproc_nspace : CStr
  tool_init_rc : Int
  default_reg_status : Int
  debug_job_rc : Int
  debug_job_val : Option pmix_value_t
  local_rank_rc : Int
  local_rank_val : Option pmix_value_t
  term_reg_status : Int
  query_rc : Int
  notify_rc : Int

/-- A run of `main` of `daemon.c`: the variables `target_namespace` (`none`
for `NULL`) and `cospawned_namespace` at the end, the calls in order, and
whether the run ended in `exit(0)` before any of them. -/
structure Run where
  target_namespace : Option CStr
  cospawned_namespace : Int
  calls : List Call
  exited : Bool
  deriving DecidableEq, Repr

/-- Lines 267-421 of `main`: from the local rank to the final wait, with the
target namespace `target` and the flag `cospawned`. -/
def main_rest (env : Env) (target : CStr) (cospawned : Int) (pre : List Call) : Run :=
  let stop (calls : List Call) : Run :=
    { target_namespace := some target, cospawned_namespace := cospawned,
      calls := calls ++ [Call.tool_finalize], exited := false }
  let c1 := pre ++ [Call.get_local_rank]
  if PMIX_SUCCESS ≠ env.local_rank_rc then stop c1
  else
    match env.local_rank_val with
    | none => stop c1
    | some (pmix_value_t.uint16 _) =>
      let c2 := c1 ++ [Call.register_termination]
      if PMIX_SUCCESS ≠ env.term_reg_status then stop c2
      else
        let c3 := c2 ++ [Call.query_local_proctable]
        if PMIX_SUCCESS ≠ env.query_rc then stop c3
        else
          let c4 := c3 ++ [Call.notify_release]
          if PMIX_SUCCESS ≠ env.notify_rc then stop c4
          else if 0 = cospawned then stop (c4 ++ [Call.wait_termination])
          else stop c4
    | some _ => stop c1

/-- Function `main` of `daemon.c` (lines 171-443). -/
def main (env : Env) : Run :=
  if PMIX_SUCCESS ≠ env.tool_init_rc then
    { target_namespace := none, cospawned_namespace := 0, calls := [], exited := true }
  else if PMIX_SUCCESS ≠ env.default_reg_status then
    { target_namespace := none, cospawned_namespace := 0,
      calls := [Call.register_default, Call.tool_finalize], exited := false }
  else
    let pre := [Call.register_default, Call.get_debug_job]
    let fail : Run :=
      { target_namespace := none, cospawned_namespace := 0,
        calls := pre ++ [Call.tool_finalize], exited := false }
    if PMIX_ERR_NOT_FOUND = env.debug_job_rc then main_rest env env.myproc_nspace 1 pre
    else if env.debug_job_rc ≠ PMIX_SUCCESS then fail
    else
      match env.debug_job_val with
      | some (pmix_value_t.string v) => main_rest env v 0 pre
      | _ => fail

end Daemon

/-! ## `_query` of `src/prted/pmix/pmix_server_queries.c` -/

namespace Server

/-- A query `pmix_query_t`: its keys and its qualifiers. -/
structure pmix_query_t where
  keys : List CStr
  qualifiers : List pmix_info_t
  deriving DecidableEq, Repr

/-- What the branch for one key (lines 175-567) does: it appends one item to
`results`; or it appends one item and assigns `m` (the branch of
`PMIX_QUERY_NAMESPACE_INFO`, line 228); or it appends nothing (an unrecognized
key, or a value that is not available); or it leaves through `goto done` with
the given value of `ret` (`PMIX_SUCCESS` when `ret` was not assigned). -/
inductive KeyResult where
  | item (i : pmix_info_t)
  | item_set_m (i : pmix_info_t) (m : Nat)
  | nothing
  | jump (ret : Int)
  deriving DecidableEq, Repr

/-- The tables of the runtime that `_query` reads (jobs, nodes, topology),
through what they make the code do: whether the requestor converts (line
110), the `ret` with which the qualifier loop of a query leaves through
`goto done` (lines 125-170), if it does, and what the branch of a key does. -/
structure Tables where
  requestor_ok : Bool
  qualifiers : pmix_query_t → Option Int
  branch : pmix_query_t → CStr → KeyResult

/-- The loop `for (n=0; NULL != q->keys[n]; n++)` (lines 171-568) from the
key list `keys` on: the results, the value of `m`, and the `ret` of a
`goto done`. -/
def keys_loop (t : Tables) (q : pmix_query_t) :
    List CStr → List pmix_info_t → Nat → List pmix_info_t × Nat × Option Int
  | [], results, m => (results, m, none)
  | k :: ks, results, m =>
    match t.branch q k with
    | KeyResult.item i => keys_loop t q ks (results ++ [i]) m
    | KeyResult.item_set_m i m2 => keys_loop t q ks (results ++ [i]) m2
    | KeyResult.nothing => keys_loop t q ks results m
    | KeyResult.jump ret => (results, m, some ret)

/-- The loop `for (m=0; m < cd->nqueries; m++)` (lines 118-569) from index
`m` on: the results and `ret` on reaching `done`, or `none` when `fuel`
iterations did not end the loop. -/
def queries_loop (t : Tables) (queries : List pmix_query_t) :
    Nat → Nat → List pmix_info_t → Option (List pmix_info_t × Int)
  | 0, _, _ => none
  | fuel + 1, m, results =>
    match queries.get? m with
    | none => some (results, PMIX_SUCCESS)
    | some q =>
      match t.qualifiers q with
      | some ret => some (results, ret)
      | none =>
        match keys_loop t q q.keys results m with
        | (results2, _, some ret) => some (results2, ret)
        | (results2, m2, none) => queries_loop t queries fuel (m2 + 1) results2

/-- The block at `done` (lines 571-593): the status and the items handed to
the callback, from `ret`, the list `results` and the member `cd->ninfo`. -/
def query_done (ret : Int) (results : List pmix_info_t) (cd_ninfo : Nat) :
    Int × List pmix_info_t :=
  if PMIX_SUCCESS = ret then
    if 0 = results.length then (PMIX_ERR_NOT_FOUND, [])
    else if results.length < cd_ninfo then (PMIX_QUERY_PARTIAL_SUCCESS, results)
    else (PMIX_SUCCESS, results)
  else (ret, [])

/-- Function `_query` (lines 66-595): what the callback receives.  The member
`cd->ninfo` of the request is `cd_ninfo`. -/
def _query (t : Tables) (cd_ninfo : Nat) (queries : List pmix_query_t) (fuel : Nat) :
    Option (Int × List pmix_info_t) :=
  if t.requestor_ok then
    (queries_loop t queries fuel 0 []).map (fun r => query_done r.2 r.1 cd_ninfo)
  else some (query_done PMIX_ERR_BAD_PARAM [] cd_ninfo)

/-- Function `pmix_server_query_fn` (lines 597-623): the returned status and
what the scheduled `_query` hands to the callback.  The request object `cd` is
new; the function stores `proct`, `queries`, `nqueries`, `cbfunc` and `cbdata`
in it and leaves `cd->ninfo` at `caddy_ninfo`, the value the constructor of
the object gave it. -/
def pmix_server_query_fn (t : Tables) (caddy_ninfo : Nat)
    (queries : Option (List pmix_query_t)) (cbfunc : Bool) (fuel : Nat) :
    Int × Option (Int × List pmix_info_t) :=
  match queries with
  | none => (PMIX_ERR_BAD_PARAM, none)
  | some qs =>
    if cbfunc then (PMIX_SUCCESS, _query t caddy_ninfo qs fuel)
    else (PMIX_ERR_BAD_PARAM, none)

/-- The number of keys of a request. -/
def requested_keys (queries : List pmix_query_t) : Nat :=
  (queries.map (fun q => q.keys.length)).sum

end Server

/-! ## `notification_fn` of `direct.c` -/

/-- The macro `PMIX_CHECK_KEY(a, b)`: `0 == strncmp((a)->key, b, PMIX_MAX_KEYLEN)`. -/
def PMIX_CHECK_KEY (i : pmix_info_t) (key : CStr) : Bool :=
  strncmp_eq i.key key PMIX_MAX_KEYLEN

/-- The loop of lines 112-116 of `notification_fn`, from `lock = NULL`. -/
def find_return_object (info : List pmix_info_t) : Option Nat :=
  info.foldl
    (fun lock i => if PMIX_CHECK_KEY i PMIX_EVENT_RETURN_OBJECT then i.value.data_ptr else lock)
    none

/-- Function `notification_fn` of `direct.c` (lines 94-133), called with the
event status `status`. -/
def notification_fn (w : World) (status : Int) (e : Event) : World × List Effect :=
  if PMIX_ERR_UNREACH = status ∨ PMIX_ERR_LOST_CONNECTION_TO_SERVER = status then
    match find_return_object e.info with
    | none => (w, call_cbfunc e.cbfunc PMIX_SUCCESS)
    | some p =>
      ({ w with
         heap := Function.update w.heap p
                   { lock := DEBUG_WAKEUP_THREAD (w.heap p).lock,
                     nspace := (w.heap p).nspace,
                     exit_code := status,
                     exit_code_given := true } },
       Effect.broadcast p :: call_cbfunc e.cbfunc PMIX_SUCCESS)
  else (w, call_cbfunc e.cbfunc PMIX_SUCCESS)

/-! ## `release_fn`, `spawn_debugger` and the launch directives of `examples/debugger.c` -/

/-- The array after the statements `PMIX_INFO_LOAD(&info[k], ...)` given as
pairs of slot and content, in order; `none` when a statement writes outside
the array. -/
def load_all : List pmix_info_t → List (Nat × pmix_info_t) → Option (List pmix_info_t)
  | arr, [] => some arr
  | arr, (k, i) :: rest => if k < arr.length then load_all (arr.set k i) rest else none

/-- How many of the load statements write slot `k`. -/
def loads_of_slot (k : Nat) (loads : List (Nat × pmix_info_t)) : Nat :=
  (loads.filter (fun l => l.1 == k)).length

namespace Debugger

/-- The tracker `myrel_t` of `examples/debugger.c` (lines 84-89). -/
structure myrel_t where
  lock : mylock_t
  nspace : Option CStr
  exit_code : Int
  exit_code_given : Bool
  deriving DecidableEq, Repr

/-- Function `release_fn` of `examples/debugger.c` (lines 164-221), called
with the event status `status`; the scan of the payload is the loop of
`direct.c`. -/
def release_fn (heap : Nat → myrel_t) (status : Int) (e : Event) :
    (Nat → myrel_t) × List Effect :=
  match (scan_info e.info).lock with
  | none => (heap, call_cbfunc e.cbfunc PMIX_SUCCESS)
  | some p =>
    (Function.update heap p
      { lock := DEBUG_WAKEUP_THREAD (heap p).lock,
        nspace := (heap p).nspace,
        exit_code :=
          if PMIX_LAUNCHER_READY = status then (heap p).exit_code
          else if (scan_info e.info).found then (scan_info e.info).exit_code
          else (heap p).exit_code,
        exit_code_given :=
          if PMIX_LAUNCHER_READY = status then (heap p).exit_code_given
          else if (scan_info e.info).found then true
          else (heap p).exit_code_given },
     Effect.broadcast p :: call_cbfunc e.cbfunc PMIX_EVENT_ACTION_COMPLETE)

/-- The size `dninfo` of the directive array of `spawn_debugger` (line 263). -/
def spawn_debugger_dninfo : Nat := 6

/-- The statements `PMIX_INFO_LOAD(&dinfo[k], ...)` of `spawn_debugger` of
`examples/debugger.c` (lines 265-271), in order. -/
def spawn_debugger_loads (appspace : CStr) : List (Nat × pmix_info_t) :=
  [ (0, info_string PMIX_MAPBY "ppr:1:node".toList),
    (1, info_flag PMIX_DEBUGGER_DAEMONS),
    (1, info_string PMIX_DEBUG_JOB appspace),
    (2, info_flag PMIX_NOTIFY_COMPLETION),
    (3, info_flag PMIX_DEBUG_WAITING_FOR_NOTIFY),
    (4, info_flag PMIX_FWD_STDOUT),
    (5, info_flag PMIX_FWD_STDERR) ]

/-- The directive array that `spawn_debugger` passes to `PMIx_Spawn` (lines
263-274). -/
def spawn_debugger_dinfo (appspace : CStr) : Option (List pmix_info_t) :=
  load_all (PMIX_INFO_CREATE spawn_debugger_dninfo) (spawn_debugger_loads appspace)

/-- The size `ninfo` of the launch-directive array of `main`, Variant B (line
497). -/
def launch_directive_ninfo : Nat := 3

/-- The statements `PMIX_INFO_LOAD(&info[k], ...)` of the launch directives
(lines 499-517), in order; the data array `darray` has two entries. -/
def launch_directive_loads (clientspace : CStr) : List (Nat × pmix_info_t) :=
  [ (0, { key := PMIX_EVENT_CUSTOM_RANGE, value := pmix_value_t.proc clientspace 0 }),
    (1, info_flag PMIX_EVENT_NON_DEFAULT),
    (2, { key := PMIX_DEBUG_JOB_DIRECTIVES, value := pmix_value_t.data_array 2 false }),
    (3, { key := PMIX_DEBUG_APP_DIRECTIVES, value := pmix_value_t.data_array 2 false }) ]

/-- The launch-directive array passed to `PMIx_Notify_event` (lines 497-522). -/
def launch_directives (clientspace : CStr) : Option (List pmix_info_t) :=
  load_all (PMIX_INFO_CREATE launch_directive_ninfo) (launch_directive_loads clientspace)

end Debugger

/-! ## The SeparateSpawn path of `direct.c` as a step relation -/

/-- Where the orchestrator stands on the SeparateSpawn path: the application
is spawned (line 663); its termination registration is acknowledged (line
690); `spawn_debugger` has returned with success and `main` is at the final
wait (line 765); `main` is past the wait or has left through `done`. -/
inductive Pc where
  | spawned
  | app_registered
  | waiting
  | finished
  deriving DecidableEq, Repr

/-- What happens next: the orchestrator takes its next step, or the resource
manager delivers the termination of the application or of the daemon. -/
inductive Move where
  | orchestrator
  | termination_app
  | termination_daemon
  deriving DecidableEq, Repr

/-- A state of the SeparateSpawn run: the variables, the position of the
orchestrator, and which terminations have been delivered. -/
structure Sched where
  w : World
  pc : Pc
  seen_app : Bool
  seen_daemon : Bool

/-- One step.  The orchestrator registers the application (`count++`), then
runs `spawn_debugger`, then leaves the final wait once the gate is inactive.
The termination of a namespace is delivered to `release_fn` at most once, and
only after the registration for it was acknowledged.  `none`: the move is not
possible in this state. -/
def Sched.step (myrel : Nat) (env : Env) (evA evB : Event) (s : Sched) : Move → Option Sched
  | Move.orchestrator =>
    match s.pc with
    | Pc.spawned => some { s with w := register_app s.w myrel, pc := Pc.app_registered }
    | Pc.app_registered =>
      if PMIX_SUCCESS ≠ (spawn_debugger s.w myrel env).2.2 then
        some { s with w := (spawn_debugger s.w myrel env).1, pc := Pc.finished }
      else some { s with w := (spawn_debugger s.w myrel env).1, pc := Pc.waiting }
    | Pc.waiting =>
      if (s.w.heap myrel).lock.active then none else some { s with pc := Pc.finished }
    | Pc.finished => none
  | Move.termination_app =>
    if (s.pc = Pc.app_registered ∨ s.pc = Pc.waiting) ∧ s.seen_app = false then
      some { s with w := (release_fn s.w evA).1, seen_app := true }
    else none
  | Move.termination_daemon =>
    if s.pc = Pc.waiting ∧ s.seen_daemon = false then
      some { s with w := (release_fn s.w evB).1, seen_daemon := true }
    else none

/-- A sequence of steps. -/
def Sched.run (myrel : Nat) (env : Env) (evA evB : Event) : Sched → List Move → Option Sched
  | s, [] => some s
  | s, m :: ms =>
    match Sched.step myrel env evA evB s m with
    | none => none
    | some s2 => Sched.run myrel env evA evB s2 ms

/-- The state in which the application has just been spawned into namespace
`A`, with the tracker as constructed. -/
def Sched.init (heap : Nat → myrel_t) (A : CStr) : Sched :=
  { w := { World.start heap with client_nspace := A }, pc := Pc.spawned,
    seen_app := false, seen_daemon := false }

/-! ## Concrete inputs -/

/-- A payload entry with the return object `p`. -/
def obj_entry (p : Nat) : pmix_info_t :=
  { key := PMIX_EVENT_RETURN_OBJECT, value := pmix_value_t.ptr (some p) }

/-- A payload entry with the exit code `c`. -/
def code_entry (c : Int) : pmix_info_t :=
  { key := PMIX_EXIT_CODE, value := pmix_value_t.integer c }

/-- A tracker with the given count, active, with no exit code stored. -/
def tracker (count : Int) : myrel_t :=
  { lock := { active := true, status := 0, count := count }, nspace := none,
    exit_code := 0, exit_code_given := false }

/-- A world with application namespace `app`, daemon namespace `dmn` and
every tracker at count 2. -/
def sample_world : World :=
  { client_nspace := "app".toList, daemon_nspace := "dmn".toList, stop_on_exec := false,
    heap := fun _ => tracker 2 }

/-- Four events for tracker 0: application, a job of an earlier run, daemon,
application again. -/
def sample_events : List Event :=
  [ { source := "app".toList, info := [obj_entry 0], cbfunc := true },
    { source := "old".toList, info := [obj_entry 0, code_entry 7], cbfunc := true },
    { source := "dmn".toList, info := [code_entry 3, obj_entry 0], cbfunc := false },
    { source := "app".toList, info := [obj_entry 0], cbfunc := true } ]

/-- A termination notice of an earlier run, with an exit code. -/
def stale_event : Event :=
  { source := "old".toList, info := [obj_entry 0, code_entry 7], cbfunc := true }

/-- An event whose payload has no return object. -/
def orphan_event : Event :=
  { source := "app".toList, info := [code_entry 7], cbfunc := true }

/-- A memory in which every tracker is fresh: count 0, active, no exit
code. -/
def fresh_heap : Nat → myrel_t := fun _ => tracker 0

/-- The answer item for the spawn-support key, with the list `s`. -/
def spawn_item (s : CStr) : pmix_info_t :=
  { key := PMIX_QUERY_SPAWN_SUPPORT, value := pmix_value_t.string s }

/-- The answer item for the debug-support key, with the list `s`. -/
def debug_item (s : CStr) : pmix_info_t :=
  { key := PMIX_QUERY_DEBUG_SUPPORT, value := pmix_value_t.string s }

/-- A capability answer of two items: the spawn-support list `spawn` and the
debug-support list `debug`. -/
def caps_answer (spawn debug : String) : List pmix_info_t :=
  [spawn_item spawn.toList, debug_item debug.toList]

/-- A capability answer of two items in which the debug-support key comes
twice and the spawn-support key is missing. -/
def caps_no_spawn_key : List pmix_info_t :=
  [debug_item "pmix.dbg.init".toList, debug_item "pmix.dbg.init".toList]

/-- A capability answer of two items in which the spawn-support key comes
twice and the debug-support key is missing. -/
def caps_no_debug_key : List pmix_info_t :=
  [spawn_item "pmix.host".toList, spawn_item "pmix.host,pmix.cospawn".toList]

/-- A resource manager that answers every call with success, gives the
capability answer `caps`, the application namespace `app` and the daemon
namespace `dmn`, and a proctable of two entries. -/
def sample_env (caps : List pmix_info_t) : Env :=
  { tool_init_rc := 0, cap_query_rc := 0, cap_info := caps,
    spawn_rc := 0, spawn_nspace := "app".toList, app_reg_status := 0,
    pt_query_rc := 0, pt_status := 0,
    pt_info := [{ key := "pmix.qry.ptable".toList, value := pmix_value_t.data_array 2 false }],
    daemon_spawn_rc := 0, daemon_spawn_nspace := "dmn".toList, daemon_reg_status := 0,
    cospawn_reg_status := 0 }

/-- The command line `./direct -c`. -/
def argv_cospawn : List CStr := ["./direct".toList, "-c".toList]

/-- The command line `./direct`. -/
def argv_plain : List CStr := ["./direct".toList]

/-- The termination event of namespace `ns` for tracker `p`. -/
def termination (ns : CStr) (p : Nat) : Event :=
  { source := ns, info := [obj_entry p], cbfunc := true }

/-- The termination event of namespace `ns` for tracker `p` with the exit
code `c`. -/
def termination_with_code (ns : CStr) (p : Nat) (c : Int) : Event :=
  { source := ns, info := [obj_entry p, code_entry c], cbfunc := true }

/-- The answer `ns1,ns2` to the namespace query of the attach. -/
def nspaces_answer : Debugger.QueryAnswer :=
  { query_rc := 0, status := 0,
    items := [info_string "pmix.qry.ns".toList "ns1,ns2".toList], release_fn := true }

/-- The content of a query result before the callback has run. -/
def empty_query_data : Debugger.myquery_data_t :=
  { lock := { active := true, status := 0 }, status := 0, info := none, ninfo := 0 }

/-- A resource manager for the daemon that answers every call with success,
the target namespace `app` and the local rank 0. -/
def sample_daemon_env : Daemon.Env :=
  { myproc_nspace := "dmn".toList, tool_init_rc := 0, default_reg_status := 0,
    debug_job_rc := 0, debug_job_val := some (pmix_value_t.string "app".toList),
    local_rank_rc := 0, local_rank_val := some (pmix_value_t.uint16 0),
    term_reg_status := 0, query_rc := 0, notify_rc := 0 }

/-- The daemon's resource manager when the lookup of `PMIX_DEBUG_JOB` ends
with the status `rc` and no value. -/
def daemon_env_lookup (rc : Int) : Daemon.Env :=
  { sample_daemon_env with debug_job_rc := rc, debug_job_val := none }

/-- A termination notice of an earlier run, with an exit code and without
completion callback. -/
def stale_event_no_cbfunc : Event :=
  { source := "old".toList, info := [obj_entry 0, code_entry 7], cbfunc := false }

/-- Server tables in which the spawn-support key produces an item and every
other key produces nothing. -/
def sample_tables : Server.Tables :=
  { requestor_ok := true, qualifiers := fun _ => none,
    branch := fun _ k =>
      if k = PMIX_QUERY_SPAWN_SUPPORT then
        Server.KeyResult.item (spawn_item "pmix.host,pmix.cospawn".toList)
      else Server.KeyResult.nothing }

/-- A request of one query with `c + 2` keys, of which the server knows all
but the last; for `c = 0` two keys, of which one produces an item. -/
def partial_request (c : Nat) : List Server.pmix_query_t :=
  [{ keys := List.replicate (c + 1) PMIX_QUERY_SPAWN_SUPPORT ++ ["pmix.qry.unknown".toList],
     qualifiers := [] }]

/-- A memory of `examples/debugger.c` in which every tracker is active and
holds the exit code 3. -/
def debugger_heap_with_code : Nat → Debugger.myrel_t := fun _ =>
  { lock := { active := true, status := 0 }, nspace := none, exit_code := 3,
    exit_code_given := true }

/-- A memory in which every tracker is active and holds the exit code 3. -/
def heap_with_code : Nat → myrel_t := fun _ =>
  { lock := { active := true, status := 0, count := 0 }, nspace := none, exit_code := 3,
    exit_code_given := true }

/-- The schedule in which the application terminates right after its
registration: registration, termination of the application, `spawn_debugger`,
final wait. -/
def early_termination_schedule : List Move :=
  [Move.orchestrator, Move.termination_app, Move.orchestrator, Move.orchestrator]

/-- What a state of the SeparateSpawn run shows: the position, the delivered
terminations, and the active flag and the count of the tracker at `myrel`. -/
def Sched.view (myrel : Nat) (s : Sched) : Pc × Bool × Bool × Bool × Int :=
  (s.pc, s.seen_app, s.seen_daemon, (s.w.heap myrel).lock.active, (s.w.heap myrel).lock.count)

/-! ## Facts about `release_fn` -/

theorem capture_exit_code_lock (s : Scan) (l : myrel_t) :
    (capture_exit_code s l).lock = l.lock := by
  unfold capture_exit_code
  split_ifs <;> rfl

theorem release_fn_client_nspace (w : World) (e : Event) :
    (release_fn w e).1.client_nspace = w.client_nspace := by
  unfold release_fn
  cases h : (scan_info e.info).lock <;> simp [h]

theorem release_fn_daemon_nspace (w : World) (e : Event) :
    (release_fn w e).1.daemon_nspace = w.daemon_nspace := by
  unfold release_fn
  cases h : (scan_info e.info).lock <;> simp [h]

theorem nspace_matches_release_fn (w : World) (e : Event) (src : CStr) :
    nspace_matches (release_fn w e).1 src = nspace_matches w src := by
  unfold nspace_matches
  rw [release_fn_client_nspace, release_fn_daemon_nspace]

theorem matching_release_fn (w : World) (e : Event) (es : List Event) :
    matching (release_fn w e).1 es = matching w es := by
  unfold matching
  simp only [nspace_matches_release_fn]

theorem release_fn_heap_carries (w : World) (e : Event) (p : Nat) (h : carries p e) :
    (release_fn w e).1.heap p =
      count_down w e.source (capture_exit_code (scan_info e.info) (w.heap p)) := by
  unfold carries at h
  unfold release_fn
  simp [h]

theorem release_fn_effects_carries (w : World) (e : Event) (p : Nat) (h : carries p e) :
    (release_fn w e).2 =
      count_down_effects w e.source p (capture_exit_code (scan_info e.info) (w.heap p))
        ++ call_cbfunc e.cbfunc PMIX_EVENT_ACTION_COMPLETE := by
  unfold carries at h
  unfold release_fn
  simp [h]

theorem wakeups_append (p : Nat) (a b : List Effect) :
    wakeups p (a ++ b) = wakeups p a + wakeups p b := by
  unfold wakeups
  exact List.count_append _ _ _

theorem wakeups_call_cbfunc (p : Nat) (c : Bool) (s : Int) :
    wakeups p (call_cbfunc c s) = 0 := by
  unfold wakeups call_cbfunc
  cases c <;> simp

/-- One call of `release_fn` on an event that carries tracker `p`: the count,
the active flag and the number of wake-ups. -/
theorem release_fn_gate (w : World) (e : Event) (p : Nat) (h : carries p e) :
    ((release_fn w e).1.heap p).lock.count =
        (if nspace_matches w e.source then (w.heap p).lock.count - 1
         else (w.heap p).lock.count) ∧
    ((release_fn w e).1.heap p).lock.active =
        (if nspace_matches w e.source = true ∧ (w.heap p).lock.count = 1 then false
         else (w.heap p).lock.active) ∧
    wakeups p (release_fn w e).2 =
        (if nspace_matches w e.source = true ∧ (w.heap p).lock.count = 1 then 1 else 0) := by
  rw [release_fn_heap_carries w e p h, release_fn_effects_carries w e p h, wakeups_append,
    wakeups_call_cbfunc]
  unfold count_down count_down_effects
  simp only [capture_exit_code_lock]
  by_cases hm : nspace_matches w e.source = true
  · by_cases hc : (w.heap p).lock.count = 1
    · simp [hm, hc, DEBUG_WAKEUP_THREAD, wakeups]
    · have hc2 : ¬ (0 : Int) = (w.heap p).lock.count - 1 := by omega
      simp [hm, hc, hc2, wakeups]
  · simp [hm, wakeups, capture_exit_code_lock]

/-- A sequence of `release_fn` calls on events that all carry tracker `p`:
the count falls by the number of matching events, and the gate is woken up
once, at the event that takes the count from 1 to 0. -/
theorem deliver_gate (p : Nat) (es : List Event) :
    ∀ w : World, (∀ e ∈ es, carries p e) →
      ((deliver w es).1.heap p).lock.count = (w.heap p).lock.count - (matching w es : Int) ∧
      ((deliver w es).1.heap p).lock.active =
        (if 1 ≤ (w.heap p).lock.count ∧ (w.heap p).lock.count ≤ (matching w es : Int)
         then false else (w.heap p).lock.active) ∧
      wakeups p (deliver w es).2 =
        (if 1 ≤ (w.heap p).lock.count ∧ (w.heap p).lock.count ≤ (matching w es : Int)
         then 1 else 0) := by
  induction es with
  | nil =>
    intro w _
    have h0 : ¬ (1 ≤ (w.heap p).lock.count ∧ (w.heap p).lock.count ≤ ((0 : Nat) : Int)) := by
      omega
    simp only [deliver, matching, wakeups, List.filter_nil, List.length_nil, List.count_nil,
      if_neg h0]
    simp
  | cons e es ih =>
    intro w hall
    have he : carries p e := hall e (List.mem_cons_self _ _)
    have hes : ∀ x ∈ es, carries p x := fun x hx => hall x (List.mem_cons_of_mem _ hx)
    obtain ⟨g1, g2, g3⟩ := release_fn_gate w e p he
    obtain ⟨i1, i2, i3⟩ := ih (release_fn w e).1 hes
    rw [matching_release_fn] at i1 i2 i3
    simp only [deliver, wakeups_append]
    rw [i1, i2, i3, g1, g2, g3]
    by_cases hq : nspace_matches w e.source = true
    · have hm : (matching w (e :: es) : Int) = 1 + (matching w es : Int) := by
        unfold matching
        simp [List.filter_cons, hq]
        omega
      rw [hm]
      simp only [hq, if_true, true_and]
      refine ⟨?_, ?_, ?_⟩ <;> (try split_ifs) <;> first | rfl | omega
    · have hm : (matching w (e :: es) : Int) = (matching w es : Int) := by
        unfold matching
        simp [List.filter_cons, hq]
      rw [hm]
      simp only [hq, Bool.false_eq_true, if_false, false_and]
      exact ⟨trivial, trivial, Nat.zero_add _⟩

theorem matching_le_length (w : World) (es : List Event) : matching w es ≤ es.length := by
  unfold matching
  exact List.length_filter_le _ _

/-- The count stays in the range of a 32-bit `int` over every prefix of a
sequence of events when it starts in range and at least the length of the
sequence above the least `int`: on such runs no decrement overflows. -/
theorem deliver_count_in_int_range (p : Nat) (es : List Event) (w : World) (k : Nat)
    (hall : ∀ e ∈ es, carries p e)
    (hlo : -(2147483648 : Int) + (es.length : Int) ≤ (w.heap p).lock.count)
    (hhi : (w.heap p).lock.count ≤ 2147483647) :
    -(2147483648 : Int) ≤ ((deliver w (es.take k)).1.heap p).lock.count ∧
    ((deliver w (es.take k)).1.heap p).lock.count ≤ 2147483647 := by
  have hpre : ∀ e ∈ es.take k, carries p e := fun e he => hall e (List.mem_of_mem_take he)
  obtain ⟨h1, _, _⟩ := deliver_gate p (es.take k) w hpre
  have h2 := matching_le_length w (es.take k)
  have h3 : (es.take k).length ≤ es.length := by
    rw [List.length_take]
    exact Nat.min_le_right _ _
  rw [h1]
  omega

theorem count_down_exit (w : World) (src : CStr) (l : myrel_t) :
    (count_down w src l).exit_code = l.exit_code ∧
    (count_down w src l).exit_code_given = l.exit_code_given ∧
    (count_down w src l).nspace = l.nspace := by
  unfold count_down
  split_ifs <;> exact ⟨rfl, rfl, rfl⟩

theorem count_down_no_match (w : World) (src : CStr) (l : myrel_t)
    (h : nspace_matches w src = false) : count_down w src l = l := by
  unfold count_down
  simp [h]

theorem count_down_effects_no_match (w : World) (src : CStr) (p : Nat) (l : myrel_t)
    (h : nspace_matches w src = false) : count_down_effects w src p l = [] := by
  unfold count_down_effects
  simp [h]

theorem nspace_matches_false (w : World) (src : CStr)
    (hc : src ≠ w.client_nspace) (hd : src ≠ w.daemon_nspace) :
    nspace_matches w src = false := by
  unfold nspace_matches strcmp_eq
  have h1 : (w.daemon_nspace == src) = false := by
    rw [beq_eq_false_iff_ne]
    exact fun h => hd h.symm
  have h2 : (w.client_nspace == src) = false := by
    rw [beq_eq_false_iff_ne]
    exact fun h => hc h.symm
  rw [h1, h2]
  rfl

/-- The heap after one call of `release_fn`, at any address. -/
theorem release_fn_heap (w : World) (e : Event) (q : Nat) :
    (release_fn w e).1.heap q =
      if (scan_info e.info).lock = some q then
        count_down w e.source (capture_exit_code (scan_info e.info) (w.heap q))
      else w.heap q := by
  unfold release_fn
  cases h : (scan_info e.info).lock with
  | none => simp [h]
  | some p =>
    by_cases hq : p = q
    · subst hq
      simp [h]
    · have hq2 : q ≠ p := fun h => hq h.symm
      simp [h, hq, Function.update_noteq hq2]

/-- The scan leaves `lock` at `NULL` when no key is the return-object key. -/
theorem scan_foldl_lock_none (info : List pmix_info_t) :
    ∀ s : Scan, s.lock = none →
      (∀ i ∈ info, strncmp_eq i.key PMIX_EVENT_RETURN_OBJECT PMIX_MAX_KEYLEN = false) →
      (info.foldl scan_step s).lock = none := by
  induction info with
  | nil => intro s hs _; simpa using hs
  | cons i rest ih =>
    intro s hs hall
    have hi := hall i (List.mem_cons_self _ _)
    have hrest : ∀ x ∈ rest,
        strncmp_eq x.key PMIX_EVENT_RETURN_OBJECT PMIX_MAX_KEYLEN = false :=
      fun x hx => hall x (List.mem_cons_of_mem _ hx)
    rw [List.foldl_cons]
    apply ih _ _ hrest
    unfold scan_step
    rw [hi]
    simp only [Bool.false_eq_true, if_false]
    split_ifs <;> exact hs


/-- After a call of `release_fn`, a tracker that had an exit code keeps it. -/
theorem release_fn_keeps_exit_code (w : World) (e : Event) (q : Nat)
    (h : (w.heap q).exit_code_given = true) :
    ((release_fn w e).1.heap q).exit_code_given = true ∧
    ((release_fn w e).1.heap q).exit_code = (w.heap q).exit_code := by
  rw [release_fn_heap]
  split_ifs
  · obtain ⟨h1, h2, _⟩ := count_down_exit w e.source
      (capture_exit_code (scan_info e.info) (w.heap q))
    rw [h1, h2]
    unfold capture_exit_code
    simp [h]
  · exact ⟨h, rfl⟩

/-- A call of `release_fn` on an event without exit code changes no exit
code. -/
theorem release_fn_no_code (w : World) (e : Event) (q : Nat)
    (h : (scan_info e.info).found = false) :
    ((release_fn w e).1.heap q).exit_code_given = (w.heap q).exit_code_given ∧
    ((release_fn w e).1.heap q).exit_code = (w.heap q).exit_code := by
  rw [release_fn_heap]
  split_ifs
  · obtain ⟨h1, h2, _⟩ := count_down_exit w e.source
      (capture_exit_code (scan_info e.info) (w.heap q))
    rw [h1, h2]
    unfold capture_exit_code
    simp [h]
  · exact ⟨rfl, rfl⟩

/-- A call of `release_fn` on an event with an exit code stores it in the
tracker it carries when that tracker has none. -/
theorem release_fn_captures (w : World) (e : Event) (p : Nat) (hp : carries p e)
    (hf : (scan_info e.info).found = true) (hg : (w.heap p).exit_code_given = false) :
    ((release_fn w e).1.heap p).exit_code_given = true ∧
    ((release_fn w e).1.heap p).exit_code = (scan_info e.info).exit_code := by
  rw [release_fn_heap_carries w e p hp]
  obtain ⟨h1, h2, _⟩ := count_down_exit w e.source
    (capture_exit_code (scan_info e.info) (w.heap p))
  rw [h1, h2]
  unfold capture_exit_code
  simp [hf, hg]

theorem deliver_append (es fs : List Event) :
    ∀ w : World, (deliver w (es ++ fs)).1 = (deliver (deliver w es).1 fs).1 := by
  induction es with
  | nil => intro w; rfl
  | cons e es ih =>
    intro w
    simp only [List.cons_append, deliver]
    exact ih _

theorem deliver_keeps_exit_code (q : Nat) (es : List Event) :
    ∀ w : World, (w.heap q).exit_code_given = true →
      ((deliver w es).1.heap q).exit_code_given = true ∧
      ((deliver w es).1.heap q).exit_code = (w.heap q).exit_code := by
  induction es with
  | nil => intro w h; exact ⟨h, rfl⟩
  | cons e es ih =>
    intro w h
    obtain ⟨h1, h2⟩ := release_fn_keeps_exit_code w e q h
    obtain ⟨h3, h4⟩ := ih (release_fn w e).1 h1
    simp only [deliver]
    exact ⟨h3, h4.trans h2⟩

theorem deliver_no_code (q : Nat) (es : List Event) :
    ∀ w : World, (∀ e ∈ es, (scan_info e.info).found = false) →
      ((deliver w es).1.heap q).exit_code_given = (w.heap q).exit_code_given ∧
      ((deliver w es).1.heap q).exit_code = (w.heap q).exit_code := by
  induction es with
  | nil => intro w _; exact ⟨rfl, rfl⟩
  | cons e es ih =>
    intro w h
    obtain ⟨h1, h2⟩ := release_fn_no_code w e q (h e (List.mem_cons_self _ _))
    obtain ⟨h3, h4⟩ := ih (release_fn w e).1 (fun x hx => h x (List.mem_cons_of_mem _ hx))
    simp only [deliver]
    exact ⟨h3.trans h1, h4.trans h2⟩

/-! ## The claims on `release_fn` of `direct.c` -/

/-- C1: from `count = N ≥ 1` and an active gate, over any sequence of
termination events that all carry the tracker, the gate is active (and was
never woken up) after every prefix with fewer than `N` matching events, and
inactive with exactly one wake-up after every prefix with at least `N`
matching events, however matching and other events are interleaved. -/
theorem release_fn_releases_once_at_Nth (w : World) (p N : Nat) (es : List Event) (k : Nat)
    (hN : 1 ≤ N) (hc : (w.heap p).lock.count = (N : Int))
    (ha : (w.heap p).lock.active = true) (hall : ∀ e ∈ es, carries p e) :
    (matching w (es.take k) < N →
      ((deliver w (es.take k)).1.heap p).lock.active = true ∧
      wakeups p (deliver w (es.take k)).2 = 0) ∧
    (N ≤ matching w (es.take k) →
      ((deliver w (es.take k)).1.heap p).lock.active = false ∧
      wakeups p (deliver w (es.take k)).2 = 1) := by
  have hpre : ∀ e ∈ es.take k, carries p e := fun e he => hall e (List.mem_of_mem_take he)
  obtain ⟨_, h2, h3⟩ := deliver_gate p (es.take k) w hpre
  rw [h2, h3, hc]
  constructor
  · intro hlt
    have hn : ¬ (1 ≤ (N : Int) ∧ (N : Int) ≤ (matching w (es.take k) : Int)) := by omega
    simp only [if_neg hn]
    exact ⟨ha, trivial⟩
  · intro hle
    have hy : 1 ≤ (N : Int) ∧ (N : Int) ≤ (matching w (es.take k) : Int) := by omega
    simp only [if_pos hy]
    exact ⟨trivial, trivial⟩

/-- Witness of C1: count 2, the events application, stale, daemon,
application; after three of them two have matched. -/
theorem release_fn_releases_once_at_Nth_witness :
    (2 ≤ matching sample_world (sample_events.take 3) →
      ((deliver sample_world (sample_events.take 3)).1.heap 0).lock.active = false ∧
      wakeups 0 (deliver sample_world (sample_events.take 3)).2 = 1) ∧
    (matching sample_world (sample_events.take 1) < 2 →
      ((deliver sample_world (sample_events.take 1)).1.heap 0).lock.active = true ∧
      wakeups 0 (deliver sample_world (sample_events.take 1)).2 = 0) :=
  ⟨(release_fn_releases_once_at_Nth sample_world 0 2 sample_events 3 (by decide) rfl rfl
      (by decide)).2,
   (release_fn_releases_once_at_Nth sample_world 0 2 sample_events 1 (by decide) rfl rfl
      (by decide)).1⟩

/-- C2: an event whose source namespace is neither `client_nspace` nor
`daemon_nspace` leaves the count and the active flag of every tracker as
they were and wakes up no gate. -/
theorem release_fn_ignores_other_nspace (w : World) (e : Event)
    (hc : e.source ≠ w.client_nspace) (hd : e.source ≠ w.daemon_nspace) :
    (∀ q, ((release_fn w e).1.heap q).lock = (w.heap q).lock) ∧
    (∀ q, wakeups q (release_fn w e).2 = 0) := by
  have hm := nspace_matches_false w e.source hc hd
  constructor
  · intro q
    rw [release_fn_heap]
    split_ifs
    · rw [count_down_no_match w e.source _ hm, capture_exit_code_lock]
    · rfl
  · intro q
    unfold release_fn
    cases h : (scan_info e.info).lock with
    | none => simp only [h, wakeups_call_cbfunc]
    | some p =>
      simp only [h, wakeups_append, wakeups_call_cbfunc,
        count_down_effects_no_match w e.source p _ hm]
      rfl

/-- Witness of C2: the stale event on the sample world. -/
theorem release_fn_ignores_other_nspace_witness :
    (∀ q, ((release_fn sample_world stale_event).1.heap q).lock = (sample_world.heap q).lock) ∧
    (∀ q, wakeups q (release_fn sample_world stale_event).2 = 0) :=
  release_fn_ignores_other_nspace sample_world stale_event (by decide) (by decide)

/-- C3, the code at the failing input: a termination notice of an earlier
run (source `old`, neither the application nor the daemon namespace) that
carries the tracker and the exit code 7 stores 7 in a tracker that had no exit
code, so the tracker is not left unchanged. -/
theorem release_fn_stale_event_stores_exit_code :
    nspace_matches sample_world stale_event.source = false ∧
    (sample_world.heap 0).exit_code_given = false ∧
    ((release_fn sample_world stale_event).1.heap 0).exit_code_given = true ∧
    ((release_fn sample_world stale_event).1.heap 0).exit_code = 7 ∧
    (release_fn sample_world stale_event).1.heap 0 ≠ sample_world.heap 0 := by
  decide

/-- C4: on a tracker without exit code, events that supply none leave it
without one; the first event that supplies one (and carries the tracker) sets
`exit_code_given` and stores its code; after that the stored code stays,
whatever the later events supply. -/
theorem release_fn_keeps_first_exit_code (w : World) (p : Nat) (pre post : List Event)
    (e : Event) (h0 : (w.heap p).exit_code_given = false)
    (hpre : ∀ x ∈ pre, (scan_info x.info).found = false)
    (he : carries p e) (hf : (scan_info e.info).found = true) :
    ((deliver w pre).1.heap p).exit_code_given = false ∧
    ((deliver w (pre ++ [e])).1.heap p).exit_code_given = true ∧
    ((deliver w (pre ++ [e])).1.heap p).exit_code = (scan_info e.info).exit_code ∧
    ((deliver w (pre ++ e :: post)).1.heap p).exit_code_given = true ∧
    ((deliver w (pre ++ e :: post)).1.heap p).exit_code = (scan_info e.info).exit_code ∧
    (∀ (v : World) (x : Event), (v.heap p).exit_code_given = true →
      ((release_fn v x).1.heap p).exit_code = (v.heap p).exit_code) := by
  obtain ⟨a1, _⟩ := deliver_no_code p pre w hpre
  have hb : ((deliver w pre).1.heap p).exit_code_given = false := a1.trans h0
  obtain ⟨c1, c2⟩ := release_fn_captures (deliver w pre).1 e p he hf hb
  have hone : ∀ v : World, (deliver v [e]).1 = (release_fn v e).1 := fun v => rfl
  have hcons : ∀ v : World, (deliver v (e :: post)).1 = (deliver (release_fn v e).1 post).1 :=
    fun v => rfl
  obtain ⟨d1, d2⟩ := deliver_keeps_exit_code p post (release_fn (deliver w pre).1 e).1 c1
  refine ⟨hb, ?_, ?_, ?_, ?_, ?_⟩
  · rw [deliver_append, hone]; exact c1
  · rw [deliver_append, hone]; exact c2
  · rw [deliver_append, hcons]; exact d1
  · rw [deliver_append, hcons]; exact d2.trans c2
  · intro v x hv
    exact (release_fn_keeps_exit_code v x p hv).2

/-- Witness of C4: the application event without code, then the stale event
with code 7, then the daemon event with code 3. -/
theorem release_fn_keeps_first_exit_code_witness :
    ((deliver sample_world (sample_events.take 1 ++ stale_event :: sample_events.drop 2)).1.heap
      0).exit_code = 7 :=
  (release_fn_keeps_first_exit_code sample_world 0 (sample_events.take 1)
    (sample_events.drop 2) stale_event rfl (by decide) (by decide) (by decide)).2.2.2.2.1

/-- C5: when no entry of the payload has the return-object key, `release_fn`
leaves every variable and every tracker as it was, and its only call is one
`cbfunc(PMIX_SUCCESS, ...)` when `cbfunc` is not `NULL`. -/
theorem release_fn_without_return_object (w : World) (e : Event)
    (h : ∀ i ∈ e.info, strncmp_eq i.key PMIX_EVENT_RETURN_OBJECT PMIX_MAX_KEYLEN = false) :
    (release_fn w e).1 = w ∧
    (release_fn w e).2 = (if e.cbfunc then [Effect.cbfunc PMIX_SUCCESS] else []) := by
  have hl : (scan_info e.info).lock = none := scan_foldl_lock_none e.info Scan.init rfl h
  unfold release_fn
  simp only [hl]
  exact ⟨trivial, rfl⟩

/-- Witness of C5: an event whose payload holds only an exit code. -/
theorem release_fn_without_return_object_witness :
    (release_fn sample_world orphan_event).1 = sample_world ∧
    (release_fn sample_world orphan_event).2 = [Effect.cbfunc PMIX_SUCCESS] :=
  release_fn_without_return_object sample_world orphan_event (by decide)

/-! ## The rendezvous gate -/

/-- C6: a constructed gate is active with the success status; after
`evhandler_reg_callbk(s)` it is inactive with status `s`; a wait entered on
an inactive gate leaves at once, after zero iterations, with the gate as it
was; so after construct and release(s) the wait returns at once and the
waiter reads `s`. -/
theorem gate_wait_after_release :
    (∀ l : Debugger.mylock_t,
      (Debugger.DEBUG_CONSTRUCT_LOCK l).active = true ∧
      (Debugger.DEBUG_CONSTRUCT_LOCK l).status = PMIX_SUCCESS) ∧
    (∀ (s : Int) (l : Debugger.mylock_t),
      (Debugger.evhandler_reg_callbk s l).active = false ∧
      (Debugger.evhandler_reg_callbk s l).status = s) ∧
    (∀ (others : List (Debugger.mylock_t → Debugger.mylock_t)) (s : Int),
      Debugger.DEBUG_WAIT_THREAD others { active := false, status := s } =
        some (0, { active := false, status := s })) ∧
    (∀ (others : List (Debugger.mylock_t → Debugger.mylock_t)) (s : Int)
      (l : Debugger.mylock_t),
      Debugger.DEBUG_WAIT_THREAD others
          (Debugger.evhandler_reg_callbk s (Debugger.DEBUG_CONSTRUCT_LOCK l)) =
        some (0, { active := false, status := s })) := by
  have hw : ∀ (others : List (Debugger.mylock_t → Debugger.mylock_t)) (s : Int),
      Debugger.DEBUG_WAIT_THREAD others { active := false, status := s } =
        some (0, { active := false, status := s }) := by
    intro others s
    cases others <;> simp [Debugger.DEBUG_WAIT_THREAD]
  refine ⟨fun l => ⟨rfl, rfl⟩, fun s l => ⟨rfl, rfl⟩, hw, ?_⟩
  intro others s l
  exact hw others s

/-! ## Facts about `main` -/

theorem parse_args_loop_any (l : List CStr) :
    ∀ b : Bool, parse_args_loop l = some b → b = l.any is_cospawn := by
  induction l with
  | nil =>
    intro b h
    simp only [parse_args_loop, Option.some.injEq] at h
    simp [← h]
  | cons a rest ih =>
    intro b h
    unfold parse_args_loop at h
    by_cases hh : is_help a = true
    · simp [hh] at h
    · by_cases hc : is_cospawn a = true
      · simp only [hh, hc, Bool.false_eq_true, if_false, if_true, Option.some.injEq] at h
        simp [← h, hc]
      · simp only [hh, hc, Bool.false_eq_true, if_false] at h
        have := ih b h
        simp [this, hc]

theorem cospawn_launch_no_spawn_app (w : World) (p : Nat) (env : Env) :
    Effect.spawn_app ∉ (cospawn_launch w p env).2.1 := by
  unfold cospawn_launch
  dsimp only
  split_ifs <;> simp

theorem separate_spawn_effects (w : World) (p : Nat) (env : Env) :
    Effect.spawn_app ∈ (separate_spawn w p env).effects ∧
    Effect.cospawn_launch ∉ (separate_spawn w p env).effects := by
  unfold separate_spawn spawn_debugger
  dsimp only
  repeat' split
  all_goals simp

theorem strstr_found_iff (hay needle : CStr) :
    strstr_found hay needle = true ↔ needle <:+: hay := by
  induction hay with
  | nil =>
    unfold strstr_found
    rw [List.isPrefixOf_iff_prefix, List.prefix_nil, List.infix_nil]
  | cons c hay ih =>
    unfold strstr_found
    rw [Bool.or_eq_true, List.isPrefixOf_iff_prefix, ih, List.infix_cons_iff]

theorem spec_tokens_infix (s : CStr) :
    ∃ t ts, spec_tokens s = t :: ts ∧ t <+: s ∧ ∀ x ∈ ts, x <:+: s := by
  induction s with
  | nil => exact ⟨[], [], rfl, List.nil_prefix, fun x hx => by simp at hx⟩
  | cons c rest ih =>
    obtain ⟨t, ts, h, hp, hi⟩ := ih
    by_cases hc : c = ','
    · refine ⟨[], t :: ts, ?_, List.nil_prefix, ?_⟩
      · simp [spec_tokens, hc, h]
      · intro x hx
        rcases List.mem_cons.1 hx with hx | hx
        · rw [hx]
          exact List.infix_cons hp.isInfix
        · exact List.infix_cons (hi x hx)
    · refine ⟨c :: t, ts, ?_, ?_, ?_⟩
      · simp [spec_tokens, hc, h]
      · exact (List.prefix_cons_inj c).2 hp
      · intro x hx
        exact List.infix_cons (hi x hx)

theorem spec_token_is_substring (s t : CStr) (h : t ∈ spec_tokens s) : t <:+: s := by
  obtain ⟨t0, ts, h0, hp, hi⟩ := spec_tokens_infix s
  rw [h0] at h
  rcases List.mem_cons.1 h with hx | hx
  · rw [hx]
    exact hp.isInfix
  · exact hi t hx

theorem cap_step_other_key (st : Bool × Bool) (i : pmix_info_t)
    (h : i.key ≠ PMIX_QUERY_SPAWN_SUPPORT) : (cap_step st i).1 = st.1 := by
  have hk : strcmp_eq i.key PMIX_QUERY_SPAWN_SUPPORT = false := by
    unfold strcmp_eq
    rw [beq_eq_false_iff_ne]
    exact h
  unfold cap_step
  rw [hk]
  simp only [Bool.false_eq_true, if_false]
  split_ifs <;> rfl

theorem cap_foldl_other_keys (info : List pmix_info_t) :
    ∀ st : Bool × Bool, (∀ j ∈ info, j.key ≠ PMIX_QUERY_SPAWN_SUPPORT) →
      (info.foldl cap_step st).1 = st.1 := by
  induction info with
  | nil => intro st _; rfl
  | cons i rest ih =>
    intro st h
    rw [List.foldl_cons, ih _ (fun j hj => h j (List.mem_cons_of_mem _ hj))]
    exact cap_step_other_key st i (h i (List.mem_cons_self _ _))

/-- After the capability loop, `cospawn` is the result of `strstr` on the
string of the last spawn-support item. -/
theorem cap_scan_last_spawn_item (pre post : List pmix_info_t) (s : CStr) (so : Bool)
    (hpost : ∀ j ∈ post, j.key ≠ PMIX_QUERY_SPAWN_SUPPORT) :
    (cap_scan (pre ++ spawn_item s :: post) so).1 = strstr_found s PMIX_COSPAWN_APP := by
  unfold cap_scan
  rw [List.foldl_append, List.foldl_cons, cap_foldl_other_keys post _ hpost]
  unfold cap_step strcmp_eq spawn_item
  simp [pmix_value_t.data_string]

/-- Without a spawn-support item `cospawn` stays `false`. -/
theorem cap_scan_no_spawn_item (info : List pmix_info_t) (so : Bool)
    (h : ∀ j ∈ info, j.key ≠ PMIX_QUERY_SPAWN_SUPPORT) : (cap_scan info so).1 = false := by
  unfold cap_scan
  rw [cap_foldl_other_keys info _ h]

theorem cap_step_other_key_snd (st : Bool × Bool) (i : pmix_info_t)
    (h : i.key ≠ PMIX_QUERY_DEBUG_SUPPORT) : (cap_step st i).2 = st.2 := by
  have hk : strcmp_eq i.key PMIX_QUERY_DEBUG_SUPPORT = false := by
    unfold strcmp_eq
    rw [beq_eq_false_iff_ne]
    exact h
  unfold cap_step
  rw [hk]
  simp only [Bool.false_eq_true, if_false]
  split_ifs <;> rfl

theorem cap_foldl_other_keys_snd (info : List pmix_info_t) :
    ∀ st : Bool × Bool, (∀ j ∈ info, j.key ≠ PMIX_QUERY_DEBUG_SUPPORT) →
      (info.foldl cap_step st).2 = st.2 := by
  induction info with
  | nil => intro st _; rfl
  | cons i rest ih =>
    intro st h
    rw [List.foldl_cons, ih _ (fun j hj => h j (List.mem_cons_of_mem _ hj))]
    exact cap_step_other_key_snd st i (h i (List.mem_cons_self _ _))

/-- After the capability loop, `stop_on_exec` is the result of `strstr` on the
string of the last debug-support item. -/
theorem cap_scan_last_debug_item (pre post : List pmix_info_t) (s : CStr) (so : Bool)
    (hpost : ∀ j ∈ post, j.key ≠ PMIX_QUERY_DEBUG_SUPPORT) :
    (cap_scan (pre ++ debug_item s :: post) so).2
      = strstr_found s PMIX_DEBUG_STOP_ON_EXEC := by
  have hk : strcmp_eq PMIX_QUERY_DEBUG_SUPPORT PMIX_QUERY_SPAWN_SUPPORT = false := by decide
  have hd : strcmp_eq PMIX_QUERY_DEBUG_SUPPORT PMIX_QUERY_DEBUG_SUPPORT = true := by decide
  unfold cap_scan
  rw [List.foldl_append, List.foldl_cons, cap_foldl_other_keys_snd post _ hpost]
  unfold cap_step debug_item
  simp only [hk, hd, Bool.false_eq_true, if_false, if_true, pmix_value_t.data_string]

/-- Without a debug-support item `stop_on_exec` stays as it was. -/
theorem cap_scan_no_debug_item (info : List pmix_info_t) (so : Bool)
    (h : ∀ j ∈ info, j.key ≠ PMIX_QUERY_DEBUG_SUPPORT) : (cap_scan info so).2 = so := by
  unfold cap_scan
  rw [cap_foldl_other_keys_snd info _ h]

/-- A non-empty token that occurs in `value.data.string` occurs in the string
that the value holds. -/
theorem data_string_infix (v : pmix_value_t) (t : CStr) (ht : t ≠ [])
    (h : t <:+: v.data_string) : ∃ s, v = pmix_value_t.string s ∧ t <:+: s := by
  cases v with
  | string s => exact ⟨s, rfl, h⟩
  | _ => exact absurd (List.infix_nil.1 h) ht

/-- The run of `main` once the capability answer of two items is there and the
loop over it is defined. -/
theorem main_at_decision (argv : List CStr) (env : Env) (heap : Nat → myrel_t) (reqd : Bool)
    (hargs : parse_args argv = some reqd) (hinit : env.tool_init_rc = PMIX_SUCCESS)
    (hq : env.cap_query_rc = PMIX_SUCCESS) (h2 : env.cap_info.length = 2)
    (hdef : cap_strstr_defined env.cap_info = true) :
    (((cap_scan env.cap_info false).1 && reqd) = true →
      takes_cospawn (main argv env heap)) ∧
    (((cap_scan env.cap_info false).1 && reqd) = false →
      takes_separate (main argv env heap)) := by
  unfold main takes_cospawn takes_separate
  simp only [hargs, hinit, hq, h2, hdef, World.start, ne_eq, not_true_eq_false, if_false,
    Bool.not_true, Bool.false_eq_true]
  constructor
  · intro h
    simp only [h, if_true]
    exact ⟨List.mem_cons_self _ _, by
      simpa using cospawn_launch_no_spawn_app _ _ _⟩
  · intro h
    simp only [h, Bool.false_eq_true, if_false]
    exact separate_spawn_effects _ _ _

theorem after_registrations_state (w : World) (p : Nat) (env : Env) (A : CStr)
    (hrc : env.daemon_spawn_rc = PMIX_SUCCESS) :
    (after_registrations w p env A).client_nspace = A ∧
    (after_registrations w p env A).daemon_nspace = env.daemon_spawn_nspace ∧
    ((after_registrations w p env A).heap p).lock.count = (w.heap p).lock.count + 2 ∧
    ((after_registrations w p env A).heap p).lock.active = (w.heap p).lock.active := by
  unfold after_registrations spawn_debugger register_app count_incr set_nspace set_count
  simp only [hrc, ne_eq, not_true_eq_false, if_false, Function.update_same]
  refine ⟨?_, ?_, ?_, ?_⟩ <;> first | trivial | omega

theorem matching_cons (w : World) (e : Event) (es : List Event) :
    matching w (e :: es) = (if nspace_matches w e.source then 1 else 0) + matching w es := by
  unfold matching
  by_cases hq : nspace_matches w e.source = true
  · simp [List.filter_cons, hq]
    omega
  · simp [List.filter_cons, hq]

theorem matching_nil (w : World) : matching w [] = 0 := rfl

theorem cap_foldl_stop_on_exec (info : List pmix_info_t) :
    ∀ st : Bool × Bool, (info.foldl cap_step st).2 = true →
      st.2 = true ∨ ∃ i ∈ info, i.key = PMIX_QUERY_DEBUG_SUPPORT ∧
        PMIX_DEBUG_STOP_ON_EXEC <:+: i.value.data_string := by
  induction info with
  | nil => intro st h; exact Or.inl h
  | cons i rest ih =>
    intro st h
    rw [List.foldl_cons] at h
    rcases ih _ h with h1 | ⟨j, hj, hk, hs⟩
    · unfold cap_step at h1
      by_cases ha : strcmp_eq i.key PMIX_QUERY_SPAWN_SUPPORT = true
      · simp only [ha, if_true] at h1
        exact Or.inl h1
      · by_cases hb : strcmp_eq i.key PMIX_QUERY_DEBUG_SUPPORT = true
        · simp only [ha, hb, Bool.false_eq_true, if_false, if_true] at h1
          refine Or.inr ⟨i, List.mem_cons_self _ _, ?_, (strstr_found_iff _ _).1 h1⟩
          unfold strcmp_eq at hb
          exact eq_of_beq hb
        · simp only [ha, hb, Bool.false_eq_true, if_false] at h1
          exact Or.inl h1
    · exact Or.inr ⟨j, List.mem_cons_of_mem _ hj, hk, hs⟩

/-- The first spawn request of `main` once the capability answer of two items
is there, on each path. -/
theorem main_first_spawn_args (argv : List CStr) (env : Env) (heap : Nat → myrel_t)
    (reqd : Bool) (hargs : parse_args argv = some reqd)
    (hinit : env.tool_init_rc = PMIX_SUCCESS) (hq : env.cap_query_rc = PMIX_SUCCESS)
    (h2 : env.cap_info.length = 2) (hdef : cap_strstr_defined env.cap_info = true) :
    first_spawn_args (main argv env heap).effects =
      some (if ((cap_scan env.cap_info false).1 && reqd) = true then
          (cospawn_info, [
            { cmd := "./hello".toList, argv := ["./hello".toList], maxprocs := 2,
              info := [pause_directive (cap_scan env.cap_info false).2] },
            { cmd := "./daemon".toList, argv := ["./daemon".toList], maxprocs := 1,
              info := [info_flag PMIX_DEBUGGER_DAEMONS, info_flag PMIX_NOTIFY_COMPLETION,
                info_flag PMIX_DEBUG_WAITING_FOR_NOTIFY] }])
        else
          ([info_string PMIX_MAPBY "slot".toList,
            pause_directive (cap_scan env.cap_info false).2,
            info_flag PMIX_FWD_STDOUT, info_flag PMIX_FWD_STDERR,
            info_flag PMIX_NOTIFY_COMPLETION], app_spawn_apps)) := by
  unfold main
  simp only [hargs, hinit, hq, h2, hdef, World.start, ne_eq, not_true_eq_false, if_false,
    Bool.not_true, Bool.false_eq_true]
  by_cases hb : ((cap_scan env.cap_info false).1 && reqd) = true
  · simp only [hb, if_true]
    unfold cospawn_launch cospawn_apps
    dsimp only
    split_ifs <;> rfl
  · simp only [hb, Bool.false_eq_true, if_false]
    unfold separate_spawn app_spawn_info
    dsimp only
    repeat' split
    all_goals rfl

theorem cospawn_launch_stop_on_exec (w : World) (p : Nat) (env : Env) :
    (cospawn_launch w p env).1.stop_on_exec = w.stop_on_exec := by
  unfold cospawn_launch set_nspace set_count
  dsimp only
  split_ifs <;> rfl

theorem separate_spawn_stop_on_exec (w : World) (p : Nat) (env : Env) :
    (separate_spawn w p env).world.stop_on_exec = w.stop_on_exec := by
  unfold separate_spawn spawn_debugger register_app count_incr set_nspace set_count
  dsimp only
  repeat' split
  all_goals rfl

/-- The variable `stop_on_exec` at the end of the run is what the capability
loop has assigned to it. -/
theorem main_stop_on_exec (argv : List CStr) (env : Env) (heap : Nat → myrel_t)
    (reqd : Bool) (hargs : parse_args argv = some reqd)
    (hinit : env.tool_init_rc = PMIX_SUCCESS) (hq : env.cap_query_rc = PMIX_SUCCESS)
    (h2 : env.cap_info.length = 2) (hdef : cap_strstr_defined env.cap_info = true) :
    (main argv env heap).world.stop_on_exec = (cap_scan env.cap_info false).2 := by
  unfold main
  simp only [hargs, hinit, hq, h2, hdef, World.start, ne_eq, not_true_eq_false, if_false,
    Bool.not_true, Bool.false_eq_true]
  by_cases hb : ((cap_scan env.cap_info false).1 && reqd) = true
  · simp only [hb, if_true]
    exact cospawn_launch_stop_on_exec _ _ _
  · simp only [hb, Bool.false_eq_true, if_false]
    exact separate_spawn_stop_on_exec _ _ _

/-- The pause-point keys among the directives that the first spawn request of
`main` attaches to the application, on each path. -/
theorem main_app_pause_directive (argv : List CStr) (env : Env) (heap : Nat → myrel_t)
    (reqd : Bool) (hargs : parse_args argv = some reqd)
    (hinit : env.tool_init_rc = PMIX_SUCCESS) (hq : env.cap_query_rc = PMIX_SUCCESS)
    (h2 : env.cap_info.length = 2) (hdef : cap_strstr_defined env.cap_info = true) :
    ∃ args, first_spawn_args (main argv env heap).effects = some args ∧
      has_key PMIX_DEBUG_STOP_ON_EXEC (app_directives args)
        = (main argv env heap).world.stop_on_exec ∧
      has_key PMIX_DEBUG_STOP_IN_INIT (app_directives args)
        = !(main argv env heap).world.stop_on_exec := by
  refine ⟨_, main_first_spawn_args argv env heap reqd hargs hinit hq h2 hdef, ?_, ?_⟩
  all_goals
    rw [main_stop_on_exec argv env heap reqd hargs hinit hq h2 hdef]
    cases (cap_scan env.cap_info false).2 <;>
      by_cases hb : ((cap_scan env.cap_info false).1 && reqd) = true <;>
        simp only [hb, if_true, Bool.false_eq_true, if_false] <;> decide

/-! ## The claims on `main` of `direct.c` -/

/-- C7: once `main` has passed its argument loop with `cospawn_reqd = reqd`,
initialised the tool and received a capability answer of two items whose
capability values are strings, `cospawn_reqd` is true exactly when `-c` or
`--cospawn` is among the arguments, the CoSpawn path is taken if and only if
co-spawn was requested and the answer made it available, and in every other
case the SeparateSpawn path is taken.  In particular, with the spawn-support
list `s` (the last item with that key) and a request for co-spawn, the CoSpawn
path is taken when the co-spawn token occurs in `s` and the SeparateSpawn path
when it does not; without a request the SeparateSpawn path is taken. -/
theorem main_strategy_decision (argv : List CStr) (env : Env) (heap : Nat → myrel_t)
    (reqd : Bool) (hargs : parse_args argv = some reqd)
    (hinit : env.tool_init_rc = PMIX_SUCCESS) (hq : env.cap_query_rc = PMIX_SUCCESS)
    (h2 : env.cap_info.length = 2) (hdef : cap_strstr_defined env.cap_info = true) :
    reqd = argv.tail.any is_cospawn ∧
    (takes_cospawn (main argv env heap) ↔
      (reqd = true ∧ (cap_scan env.cap_info false).1 = true)) ∧
    (¬ (reqd = true ∧ (cap_scan env.cap_info false).1 = true) →
      takes_separate (main argv env heap)) ∧
    (∀ pre s post, env.cap_info = pre ++ spawn_item s :: post →
      (∀ j ∈ post, j.key ≠ PMIX_QUERY_SPAWN_SUPPORT) → reqd = true →
      (PMIX_COSPAWN_APP <:+: s → takes_cospawn (main argv env heap)) ∧
      (¬ PMIX_COSPAWN_APP <:+: s → takes_separate (main argv env heap))) ∧
    (reqd = false → takes_separate (main argv env heap)) := by
  obtain ⟨hc, hs⟩ := main_at_decision argv env heap reqd hargs hinit hq h2 hdef
  refine ⟨parse_args_loop_any argv.tail reqd hargs, ⟨?_, ?_⟩, ?_, ?_, ?_⟩
  · intro ht
    cases hb : ((cap_scan env.cap_info false).1 && reqd) with
    | true =>
      rw [Bool.and_eq_true] at hb
      exact ⟨hb.2, hb.1⟩
    | false => exact absurd ht.1 (hs hb).2
  · intro hr
    apply hc
    rw [Bool.and_eq_true]
    exact ⟨hr.2, hr.1⟩
  · intro hn
    apply hs
    cases hb : ((cap_scan env.cap_info false).1 && reqd) with
    | false => rfl
    | true =>
      rw [Bool.and_eq_true] at hb
      exact absurd ⟨hb.2, hb.1⟩ hn
  · intro pre s post hinfo hpost hr
    have hcap : (cap_scan env.cap_info false).1 = strstr_found s PMIX_COSPAWN_APP := by
      rw [hinfo]
      exact cap_scan_last_spawn_item pre post s false hpost
    constructor
    · intro hin
      apply hc
      rw [hcap, hr, (strstr_found_iff s PMIX_COSPAWN_APP).2 hin]
      rfl
    · intro hnin
      apply hs
      have hf : strstr_found s PMIX_COSPAWN_APP = false := by
        cases hv : strstr_found s PMIX_COSPAWN_APP with
        | false => rfl
        | true => exact absurd ((strstr_found_iff s PMIX_COSPAWN_APP).1 hv) hnin
      rw [hcap, hf]
      rfl
  · intro hr
    apply hs
    rw [hr]
    exact Bool.and_false _

/-- Witness of C7: `./direct -c` with the co-spawn token in the spawn-support
list takes the CoSpawn path, and without the token the SeparateSpawn path;
`./direct` takes the SeparateSpawn path although the token is there. -/
theorem main_strategy_decision_witness :
    takes_cospawn (main argv_cospawn
      (sample_env (caps_answer "pmix.host,pmix.cospawn" "pmix.dbg.init")) fresh_heap) ∧
    takes_separate (main argv_cospawn
      (sample_env (caps_answer "pmix.host,pmix.mapby" "pmix.dbg.init")) fresh_heap) ∧
    takes_separate (main argv_plain
      (sample_env (caps_answer "pmix.host,pmix.cospawn" "pmix.dbg.init")) fresh_heap) :=
  ⟨((main_strategy_decision argv_cospawn
      (sample_env (caps_answer "pmix.host,pmix.cospawn" "pmix.dbg.init")) fresh_heap true
      rfl rfl rfl rfl (by decide)).2.2.2.1 [] "pmix.host,pmix.cospawn".toList
        [debug_item "pmix.dbg.init".toList] rfl (by decide) rfl).1 (by decide),
   ((main_strategy_decision argv_cospawn
      (sample_env (caps_answer "pmix.host,pmix.mapby" "pmix.dbg.init")) fresh_heap true
      rfl rfl rfl rfl (by decide)).2.2.2.1 [] "pmix.host,pmix.mapby".toList
        [debug_item "pmix.dbg.init".toList] rfl (by decide) rfl).2 (by decide),
   (main_strategy_decision argv_plain
      (sample_env (caps_answer "pmix.host,pmix.cospawn" "pmix.dbg.init")) fresh_heap false
      rfl rfl rfl rfl (by decide)).2.2.2.2 rfl⟩

/-- C8, counterexample: for the spawn-support list `pmix.host,pmix.cospawn.v2`
the loop of `main` sets `cospawn`, although the co-spawn token is none of the
two tokens of that list. -/
theorem cospawn_set_by_longer_token :
    (cap_scan (caps_answer "pmix.host,pmix.cospawn.v2" "pmix.dbg.init") false).1 = true ∧
    PMIX_COSPAWN_APP ∉ spec_tokens "pmix.host,pmix.cospawn.v2".toList := by
  decide

/-- C8 as amended: with the spawn-support item holding the string `s` (and no
later spawn-support item), `cospawn` is true if and only if the co-spawn token
occurs somewhere in `s` as a substring; in particular it is true whenever the
token is one of the comma-delimited tokens of `s`. -/
theorem cospawn_iff_token_substring (pre post : List pmix_info_t) (s : CStr) (so : Bool)
    (hpost : ∀ j ∈ post, j.key ≠ PMIX_QUERY_SPAWN_SUPPORT) :
    ((cap_scan (pre ++ spawn_item s :: post) so).1 = true ↔ PMIX_COSPAWN_APP <:+: s) ∧
    (PMIX_COSPAWN_APP ∈ spec_tokens s → (cap_scan (pre ++ spawn_item s :: post) so).1 = true) := by
  rw [cap_scan_last_spawn_item pre post s so hpost]
  exact ⟨strstr_found_iff s PMIX_COSPAWN_APP,
    fun h => (strstr_found_iff s PMIX_COSPAWN_APP).2 (spec_token_is_substring s _ h)⟩

/-- Witness of C8 as amended: the answer of the PRRTE server with the token
as its last token. -/
theorem cospawn_iff_token_substring_witness :
    (cap_scan ([] ++ spawn_item "pmix.host,pmix.cospawn".toList ::
      [debug_item "pmix.dbg.init".toList]) false).1 = true :=
  (cospawn_iff_token_substring [] [debug_item "pmix.dbg.init".toList]
    "pmix.host,pmix.cospawn".toList false (by decide)).2 (by decide)

/-- C9, counterexample: a capability answer of two items in which the
spawn-support key does not appear (the debug-support key comes twice) is
accepted: `main` spawns the application and reaches its final wait. -/
theorem main_spawns_without_spawn_key :
    (∀ i ∈ caps_no_spawn_key, i.key ≠ PMIX_QUERY_SPAWN_SUPPORT) ∧
    caps_no_spawn_key.length = 2 ∧
    issues_spawn (main argv_plain (sample_env caps_no_spawn_key) fresh_heap) ∧
    (main argv_plain (sample_env caps_no_spawn_key) fresh_heap).outcome = Outcome.waits 0 := by
  decide

/-- C9 as amended: a capability answer whose number of items is not two makes
`main` issue no spawn request and end without the final wait.  An answer of
two items whose capability values are strings is accepted whatever its keys
and `main` issues a spawn request: when the spawn-support key is missing,
`cospawn` stays false and the SeparateSpawn path is taken, and when the
debug-support key is missing, `stop_on_exec` stays false and the application
is given the stop-in-init directive and not the stop-on-exec directive. -/
theorem main_checks_answer_count (argv : List CStr) (env : Env) (heap : Nat → myrel_t) :
    (env.cap_info.length ≠ 2 →
      ¬ issues_spawn (main argv env heap) ∧ (main argv env heap).effects = [] ∧
      ∀ rc, (main argv env heap).outcome ≠ Outcome.waits rc) ∧
    (∀ reqd, parse_args argv = some reqd → env.tool_init_rc = PMIX_SUCCESS →
      env.cap_query_rc = PMIX_SUCCESS → env.cap_info.length = 2 →
      cap_strstr_defined env.cap_info = true →
      issues_spawn (main argv env heap) ∧
      ((∀ i ∈ env.cap_info, i.key ≠ PMIX_QUERY_SPAWN_SUPPORT) →
        (cap_scan env.cap_info false).1 = false ∧ takes_separate (main argv env heap)) ∧
      ((∀ i ∈ env.cap_info, i.key ≠ PMIX_QUERY_DEBUG_SUPPORT) →
        (main argv env heap).world.stop_on_exec = false ∧
        ∃ args, first_spawn_args (main argv env heap).effects = some args ∧
          has_key PMIX_DEBUG_STOP_IN_INIT (app_directives args) = true ∧
          has_key PMIX_DEBUG_STOP_ON_EXEC (app_directives args) = false)) := by
  constructor
  · intro hlen
    have hlen2 : ¬ (2 = env.cap_info.length) := fun h => hlen h.symm
    have he : (main argv env heap).effects = [] ∧
        ∀ rc, (main argv env heap).outcome ≠ Outcome.waits rc := by
      unfold main
      cases parse_args argv with
      | none => simp
      | some reqd =>
        by_cases hi : PMIX_SUCCESS = env.tool_init_rc
        · by_cases hq : PMIX_SUCCESS = env.cap_query_rc
          · simp only [← hi, ← hq, ne_eq, not_true_eq_false, if_false, hlen2, not_false_eq_true,
              if_true]
            simp
          · simp only [← hi, hq, ne_eq, not_true_eq_false, if_false, not_false_eq_true, if_true]
            simp
        · simp only [hi, ne_eq, not_false_eq_true, if_true]
          simp
    refine ⟨?_, he.1, he.2⟩
    unfold issues_spawn
    rw [he.1]
    simp
  · intro reqd hargs hinit hq h2 hdef
    obtain ⟨hc, hs⟩ := main_at_decision argv env heap reqd hargs hinit hq h2 hdef
    refine ⟨?_, ?_, ?_⟩
    · unfold issues_spawn
      cases hb : ((cap_scan env.cap_info false).1 && reqd) with
      | true => exact Or.inl (hc hb).1
      | false => exact Or.inr (Or.inr (Or.inl (hs hb).1))
    · intro hk
      refine ⟨cap_scan_no_spawn_item env.cap_info false hk, ?_⟩
      apply hs
      rw [cap_scan_no_spawn_item env.cap_info false hk]
      rfl
    · intro hk
      have hso : (main argv env heap).world.stop_on_exec = false := by
        rw [main_stop_on_exec argv env heap reqd hargs hinit hq h2 hdef]
        exact cap_scan_no_debug_item env.cap_info false hk
      obtain ⟨args, ha, h1, h2⟩ :=
        main_app_pause_directive argv env heap reqd hargs hinit hq h2 hdef
      rw [hso] at h1 h2
      exact ⟨hso, args, ha, h2, h1⟩

/-- Witness of C9 as amended: an answer of one item stops `main` before any
spawn; the two-item answer without the spawn-support key leads to the
SeparateSpawn path; a two-item answer without the debug-support key leaves
`stop_on_exec` false. -/
theorem main_checks_answer_count_witness :
    (main argv_plain (sample_env [code_entry 0]) fresh_heap).effects = [] ∧
    takes_separate (main argv_plain (sample_env caps_no_spawn_key) fresh_heap) ∧
    (main argv_cospawn (sample_env caps_no_debug_key) fresh_heap).world.stop_on_exec
      = false :=
  ⟨((main_checks_answer_count argv_plain (sample_env [code_entry 0]) fresh_heap).1
      (by decide)).2.1,
   (((main_checks_answer_count argv_plain (sample_env caps_no_spawn_key) fresh_heap).2
      false rfl rfl rfl rfl (by decide)).2.1 (by decide)).2,
   (((main_checks_answer_count argv_cospawn (sample_env caps_no_debug_key) fresh_heap).2
      true rfl rfl rfl rfl (by decide)).2.2 (by decide)).1⟩

/-- C10: on the SeparateSpawn path, from a constructed tracker with count 0
and once both registrations are made, the count is 2, the gate is still active
after the termination of the application alone and after the termination of
the daemon alone, and it is inactive after both, in either order. -/
theorem separate_spawn_waits_for_both (w : World) (p : Nat) (env : Env) (A B : CStr)
    (evA evB : Event) (h0 : (w.heap p).lock.count = 0) (ha : (w.heap p).lock.active = true)
    (hrc : env.daemon_spawn_rc = PMIX_SUCCESS) (hB : env.daemon_spawn_nspace = B)
    (hsA : evA.source = A) (hsB : evB.source = B)
    (hcA : carries p evA) (hcB : carries p evB) :
    ((after_registrations w p env A).heap p).lock.count = 2 ∧
    ((deliver (after_registrations w p env A) [evA]).1.heap p).lock.active = true ∧
    ((deliver (after_registrations w p env A) [evB]).1.heap p).lock.active = true ∧
    ((deliver (after_registrations w p env A) [evA, evB]).1.heap p).lock.active = false ∧
    ((deliver (after_registrations w p env A) [evB, evA]).1.heap p).lock.active = false := by
  obtain ⟨s1, s2, s3, s4⟩ := after_registrations_state w p env A hrc
  rw [h0] at s3
  rw [ha] at s4
  rw [hB] at s2
  have hmA : nspace_matches (after_registrations w p env A) evA.source = true := by
    unfold nspace_matches strcmp_eq
    rw [s1, hsA]
    simp
  have hmB : nspace_matches (after_registrations w p env A) evB.source = true := by
    unfold nspace_matches strcmp_eq
    rw [s2, hsB]
    simp
  have hall : ∀ l : List Event, (∀ e ∈ l, e = evA ∨ e = evB) → ∀ e ∈ l, carries p e := by
    intro l hl e he
    rcases hl e he with h | h <;> rw [h] <;> assumption
  have g1 := (deliver_gate p [evA] (after_registrations w p env A)
    (hall _ (by simp))).2.1
  have g2 := (deliver_gate p [evB] (after_registrations w p env A)
    (hall _ (by simp))).2.1
  have g3 := (deliver_gate p [evA, evB] (after_registrations w p env A)
    (hall _ (by simp))).2.1
  have g4 := (deliver_gate p [evB, evA] (after_registrations w p env A)
    (hall _ (by simp))).2.1
  simp only [matching_cons, matching_nil, hmA, hmB, s3, s4, if_true] at g1 g2 g3 g4
  refine ⟨by rw [s3]; rfl, ?_, ?_, ?_, ?_⟩
  · rw [g1]; simp
  · rw [g2]; simp
  · rw [g3]; simp
  · rw [g4]; simp

/-- Witness of C10: application namespace `app`, daemon namespace `dmn`. -/
theorem separate_spawn_waits_for_both_witness :
    ((deliver (after_registrations (World.start fresh_heap) 0 (sample_env []) "app".toList)
        [termination "app".toList 0]).1.heap 0).lock.active = true ∧
    ((deliver (after_registrations (World.start fresh_heap) 0 (sample_env []) "app".toList)
        [termination "app".toList 0, termination "dmn".toList 0]).1.heap 0).lock.active
      = false :=
  ⟨(separate_spawn_waits_for_both (World.start fresh_heap) 0 (sample_env []) "app".toList
      "dmn".toList (termination "app".toList 0) (termination "dmn".toList 0)
      rfl rfl rfl rfl rfl rfl (by decide) (by decide)).2.1,
   (separate_spawn_waits_for_both (World.start fresh_heap) 0 (sample_env []) "app".toList
      "dmn".toList (termination "app".toList 0) (termination "dmn".toList 0)
      rfl rfl rfl rfl rfl rfl (by decide) (by decide)).2.2.2.1⟩

/-! ## Facts about the launch paths of `direct.c` -/

theorem cospawn_launch_state (w : World) (p : Nat) (env : Env)
    (hrc : env.spawn_rc = PMIX_SUCCESS) :
    (cospawn_launch w p env).1.client_nspace = env.spawn_nspace ∧
    (cospawn_launch w p env).1.daemon_nspace = env.spawn_nspace ∧
    ((cospawn_launch w p env).1.heap p).lock.count = 1 ∧
    ((cospawn_launch w p env).1.heap p).lock.active = (w.heap p).lock.active := by
  unfold cospawn_launch set_nspace set_count
  simp only [hrc, ne_eq, not_true_eq_false, if_false, Function.update_same]
  exact ⟨trivial, trivial, trivial, trivial⟩

/-- Whenever `main` reaches its final wait, `rc` is the success status. -/
theorem main_waits_with_success (argv : List CStr) (env : Env) (heap : Nat → myrel_t)
    (rc : Int) (hw : (main argv env heap).outcome = Outcome.waits rc) :
    rc = PMIX_SUCCESS := by
  unfold main at hw
  cases hp : parse_args argv with
  | none => simp [hp] at hw
  | some reqd =>
    simp only [hp] at hw
    by_cases hi : PMIX_SUCCESS = env.tool_init_rc
    · by_cases hq : PMIX_SUCCESS = env.cap_query_rc
      · by_cases h2 : 2 = env.cap_info.length
        · simp only [← hi, ← hq, ← h2, ne_eq, not_true_eq_false, if_false] at hw
          split at hw
          · simp at hw
          split at hw
          · simp only [Outcome.waits.injEq] at hw
            exact hw.symm
          · unfold separate_spawn spawn_debugger at hw
            dsimp only at hw
            repeat' split at hw
            all_goals first
              | (simp only [Outcome.waits.injEq] at hw
                 rename_i hs
                 simp only [ne_eq, not_not] at hs
                 rw [← hw]
                 exact hs.symm)
              | simp at hw
        · simp [← hi, ← hq, h2] at hw
      · simp [← hi, hq] at hw
    · simp [hi] at hw

/-! ## The claims on the launch paths and the end of `main` -/

/-- C11: after `cospawn_launch` has spawned the combined job into namespace
`C`, the count of the tracker is 1 and `client_nspace` and `daemon_nspace` are
both `C`; one termination event from `C` that carries the tracker makes the
gate inactive, with one wake-up. -/
theorem cospawn_launch_single_termination (w : World) (p : Nat) (env : Env) (C : CStr)
    (ev : Event) (hrc : env.spawn_rc = PMIX_SUCCESS) (hC : env.spawn_nspace = C)
    (hs : ev.source = C) (hc : carries p ev) :
    ((cospawn_launch w p env).1.heap p).lock.count = 1 ∧
    (cospawn_launch w p env).1.client_nspace = C ∧
    (cospawn_launch w p env).1.daemon_nspace = C ∧
    ((release_fn (cospawn_launch w p env).1 ev).1.heap p).lock.active = false ∧
    wakeups p (release_fn (cospawn_launch w p env).1 ev).2 = 1 := by
  obtain ⟨s1, s2, s3, _⟩ := cospawn_launch_state w p env hrc
  rw [hC] at s1 s2
  have hm : nspace_matches (cospawn_launch w p env).1 ev.source = true := by
    unfold nspace_matches strcmp_eq
    rw [s2, hs]
    simp
  obtain ⟨_, g2, g3⟩ := release_fn_gate (cospawn_launch w p env).1 ev p hc
  refine ⟨s3, s1, s2, ?_, ?_⟩
  · rw [g2]
    simp [hm, s3]
  · rw [g3]
    simp [hm, s3]

/-- Witness of C11: the combined job in namespace `app`. -/
theorem cospawn_launch_single_termination_witness :
    ((release_fn (cospawn_launch (World.start fresh_heap) 0 (sample_env [])).1
      (termination "app".toList 0)).1.heap 0).lock.active = false :=
  (cospawn_launch_single_termination (World.start fresh_heap) 0 (sample_env []) "app".toList
    (termination "app".toList 0) rfl rfl rfl (by decide)).2.2.2.1

/-- C13, counterexample: on the SeparateSpawn path with every step
successful, the application terminates with exit code 3 and the daemon
terminates; the tracker holds the exit code 3 and the gate is released, and
`main` returns 0. -/
theorem main_returns_zero_with_exit_code_three :
    ((deliver (main argv_plain (sample_env (caps_answer "pmix.host" "pmix.dbg.init"))
        fresh_heap).world
      [termination_with_code "app".toList 0 3, termination "dmn".toList 0]).1.heap
        myrel_addr).exit_code_given = true ∧
    ((deliver (main argv_plain (sample_env (caps_answer "pmix.host" "pmix.dbg.init"))
        fresh_heap).world
      [termination_with_code "app".toList 0 3, termination "dmn".toList 0]).1.heap
        myrel_addr).exit_code = 3 ∧
    main_returns (main argv_plain (sample_env (caps_answer "pmix.host" "pmix.dbg.init"))
        fresh_heap)
      [termination_with_code "app".toList 0 3, termination "dmn".toList 0] = some 0 := by
  decide

/-- C13 as amended: when `main` has reached its final wait and the
termination events have released the gate, `main` returns `rc`, which is the
success status, whatever exit code the tracker has captured. -/
theorem main_returns_success_after_wait (argv : List CStr) (env : Env)
    (heap : Nat → myrel_t) (rc : Int) (events : List Event)
    (hw : (main argv env heap).outcome = Outcome.waits rc)
    (hrel : ((deliver (main argv env heap).world events).1.heap myrel_addr).lock.active
      = false) :
    main_returns (main argv env heap) events = some PMIX_SUCCESS := by
  have hrc := main_waits_with_success argv env heap rc hw
  unfold main_returns
  rw [hw]
  simp only [hrel, Bool.false_eq_true, if_false, hrc]

/-- Witness of C13 as amended: the run of the counterexample. -/
theorem main_returns_success_after_wait_witness :
    main_returns (main argv_plain (sample_env (caps_answer "pmix.host" "pmix.dbg.init"))
        fresh_heap)
      [termination_with_code "app".toList 0 3, termination "dmn".toList 0]
      = some PMIX_SUCCESS :=
  main_returns_success_after_wait argv_plain
    (sample_env (caps_answer "pmix.host" "pmix.dbg.init")) fresh_heap 0
    [termination_with_code "app".toList 0 3, termination "dmn".toList 0] (by decide)
    (by decide)

/-- C14, the code at failing inputs: after a capability answer of one item,
after a proctable answer with a failure status (here -46), and after an empty
proctable answer, `main` abandons the launch and returns 0. -/
theorem main_abandons_with_status_zero :
    (main argv_plain (sample_env [code_entry 0]) fresh_heap).outcome = Outcome.returned 0 ∧
    (main argv_plain { sample_env (caps_answer "pmix.host" "pmix.dbg.init") with
        pt_status := -46 } fresh_heap).outcome = Outcome.returned 0 ∧
    (main argv_plain { sample_env (caps_answer "pmix.host" "pmix.dbg.init") with
        pt_info := [] } fresh_heap).outcome = Outcome.returned 0 := by
  decide

/-- C15, the code at failing inputs: the gate records the status -1 of a
registration acknowledgment; with that status for the application
registration `main` still queries the proctable, spawns the daemon and reaches
its final wait with `rc = 0`, and with that status for the registration of
`cospawn_launch` it reaches the final wait with `rc = 0` as well. -/
theorem main_goes_on_after_failed_registration :
    (evhandler_reg_callbk (-1) (DEBUG_CONSTRUCT_LOCK (tracker 0).lock)).status = -1 ∧
    (main argv_plain { sample_env (caps_answer "pmix.host" "pmix.dbg.init") with
        app_reg_status := -1 } fresh_heap).outcome = Outcome.waits 0 ∧
    Effect.query_proctable ∈ (main argv_plain
      { sample_env (caps_answer "pmix.host" "pmix.dbg.init") with
        app_reg_status := -1 } fresh_heap).effects ∧
    Effect.spawn_daemon ∈ (main argv_plain
      { sample_env (caps_answer "pmix.host" "pmix.dbg.init") with
        app_reg_status := -1 } fresh_heap).effects ∧
    (main argv_cospawn { sample_env (caps_answer "pmix.host,pmix.cospawn" "pmix.dbg.init") with
        cospawn_reg_status := -1 } fresh_heap).outcome = Outcome.waits 0 := by
  decide

/-- C18: once `main` has received a capability answer of two items whose
capability values are strings, the first spawn request, on either launch
path, gives the application the stop-on-exec directive and not the
stop-in-init directive when `stop_on_exec` is true, and the stop-in-init
directive and not the stop-on-exec directive when it is false.  `stop_on_exec`
is true only if a debug-support item of the answer holds a string that
contains the stop-on-exec token; it is true exactly when the string of the
last debug-support item contains the token, and false when the answer has no
debug-support item. -/
theorem main_pause_point_directive (argv : List CStr) (env : Env) (heap : Nat → myrel_t)
    (reqd : Bool) (hargs : parse_args argv = some reqd)
    (hinit : env.tool_init_rc = PMIX_SUCCESS) (hq : env.cap_query_rc = PMIX_SUCCESS)
    (h2 : env.cap_info.length = 2) (hdef : cap_strstr_defined env.cap_info = true) :
    (∃ args, first_spawn_args (main argv env heap).effects = some args ∧
      ((main argv env heap).world.stop_on_exec = true →
        has_key PMIX_DEBUG_STOP_ON_EXEC (app_directives args) = true ∧
        has_key PMIX_DEBUG_STOP_IN_INIT (app_directives args) = false) ∧
      ((main argv env heap).world.stop_on_exec = false →
        has_key PMIX_DEBUG_STOP_IN_INIT (app_directives args) = true ∧
        has_key PMIX_DEBUG_STOP_ON_EXEC (app_directives args) = false)) ∧
    ((main argv env heap).world.stop_on_exec = true →
      ∃ i ∈ env.cap_info, i.key = PMIX_QUERY_DEBUG_SUPPORT ∧
        ∃ s, i.value = pmix_value_t.string s ∧ PMIX_DEBUG_STOP_ON_EXEC <:+: s) ∧
    (∀ pre s post, env.cap_info = pre ++ debug_item s :: post →
      (∀ j ∈ post, j.key ≠ PMIX_QUERY_DEBUG_SUPPORT) →
      ((main argv env heap).world.stop_on_exec = true ↔ PMIX_DEBUG_STOP_ON_EXEC <:+: s)) ∧
    ((∀ j ∈ env.cap_info, j.key ≠ PMIX_QUERY_DEBUG_SUPPORT) →
      (main argv env heap).world.stop_on_exec = false) := by
  have hso := main_stop_on_exec argv env heap reqd hargs hinit hq h2 hdef
  obtain ⟨args, ha, h1, h3⟩ :=
    main_app_pause_directive argv env heap reqd hargs hinit hq h2 hdef
  refine ⟨⟨args, ha, ?_, ?_⟩, ?_, ?_, ?_⟩
  · intro h
    rw [h] at h1 h3
    exact ⟨h1, h3⟩
  · intro h
    rw [h] at h1 h3
    exact ⟨h3, h1⟩
  · intro h
    rw [hso] at h
    unfold cap_scan at h
    rcases cap_foldl_stop_on_exec env.cap_info (false, false) h with hf | ⟨i, hi, hk, hs⟩
    · exact absurd hf (by decide)
    · exact ⟨i, hi, hk, data_string_infix i.value PMIX_DEBUG_STOP_ON_EXEC (by decide) hs⟩
  · intro pre s post hinfo hpost
    rw [hso, hinfo, cap_scan_last_debug_item pre post s false hpost]
    exact strstr_found_iff s PMIX_DEBUG_STOP_ON_EXEC
  · intro hk
    rw [hso]
    exact cap_scan_no_debug_item env.cap_info false hk

/-- Witness of C18: `./direct` with a debug-support list that contains the
stop-on-exec token: `stop_on_exec` is true and the application spawn of the
SeparateSpawn path carries stop-on-exec and not stop-in-init; `./direct -c`
with co-spawn available and stop-on-exec not supported: the application entry
of the combined spawn carries stop-in-init and not stop-on-exec. -/
theorem main_pause_point_directive_witness :
    ((main argv_plain (sample_env (caps_answer "pmix.host" "pmix.dbg.exec,pmix.dbg.init"))
        fresh_heap).world.stop_on_exec = true ∧
      ∃ args, first_spawn_args (main argv_plain
          (sample_env (caps_answer "pmix.host" "pmix.dbg.exec,pmix.dbg.init"))
          fresh_heap).effects = some args ∧
        has_key PMIX_DEBUG_STOP_ON_EXEC (app_directives args) = true ∧
        has_key PMIX_DEBUG_STOP_IN_INIT (app_directives args) = false) ∧
    ((main argv_cospawn (sample_env (caps_answer "pmix.host,pmix.cospawn" "pmix.dbg.init"))
        fresh_heap).world.stop_on_exec = false ∧
      ∃ args, first_spawn_args (main argv_cospawn
          (sample_env (caps_answer "pmix.host,pmix.cospawn" "pmix.dbg.init"))
          fresh_heap).effects = some args ∧
        has_key PMIX_DEBUG_STOP_IN_INIT (app_directives args) = true ∧
        has_key PMIX_DEBUG_STOP_ON_EXEC (app_directives args) = false) := by
  obtain ⟨⟨a1, f1, t1, _⟩, _, d1, _⟩ := main_pause_point_directive argv_plain
    (sample_env (caps_answer "pmix.host" "pmix.dbg.exec,pmix.dbg.init")) fresh_heap false
    rfl rfl rfl rfl (by decide)
  obtain ⟨⟨a2, f2, _, i2⟩, _, d2, _⟩ := main_pause_point_directive argv_cospawn
    (sample_env (caps_answer "pmix.host,pmix.cospawn" "pmix.dbg.init")) fresh_heap true
    rfl rfl rfl rfl (by decide)
  have s1 := (d1 [spawn_item "pmix.host".toList] "pmix.dbg.exec,pmix.dbg.init".toList []
    rfl (by decide)).2 (by decide)
  have s2 : (main argv_cospawn
      (sample_env (caps_answer "pmix.host,pmix.cospawn" "pmix.dbg.init"))
      fresh_heap).world.stop_on_exec = false := by
    cases hv : (main argv_cospawn
      (sample_env (caps_answer "pmix.host,pmix.cospawn" "pmix.dbg.init"))
      fresh_heap).world.stop_on_exec with
    | false => rfl
    | true =>
      exact absurd ((d2 [spawn_item "pmix.host,pmix.cospawn".toList] "pmix.dbg.init".toList []
        rfl (by decide)).1 hv) (by decide)
  exact ⟨⟨s1, a1, f1, t1 s1⟩, ⟨s2, a2, f2, i2 s2⟩⟩

/-! ## The attach of `examples/debugger.c` -/

/-- C12, the code at the failing input: for the answer `ns1,ns2` and the
target `ns3`, which is not an element of that list,
`attach_to_running_job` returns 0, the success status, and `main` goes on to
`rundebugger` instead of aborting. -/
theorem attach_accepts_unknown_namespace :
    ¬ spec_nspace_known "ns3".toList "ns1,ns2".toList ∧
    Debugger.attach_to_running_job "ns3".toList nspaces_answer empty_query_data
      = PMIX_SUCCESS ∧
    Debugger.main_attach "ns3".toList nspaces_answer empty_query_data = Outcome.waits 0 := by
  decide

/-! ## The daemon of `examples/debugger/daemon.c` -/

theorem daemon_main_rest_target (env : Daemon.Env) (target : CStr) (cospawned : Int)
    (pre : List Daemon.Call) :
    (Daemon.main_rest env target cospawned pre).target_namespace = some target ∧
    (Daemon.main_rest env target cospawned pre).cospawned_namespace = cospawned := by
  unfold Daemon.main_rest
  dsimp only
  repeat' split
  all_goals exact ⟨rfl, rfl⟩

/-- C16: once the daemon has initialised and registered its default handler,
a lookup of `PMIX_DEBUG_JOB` that reports not-found makes the daemon's own
namespace the target and marks the daemon co-spawned; a lookup that succeeds
with a non-null string `v` makes `v` the target and leaves the daemon
unmarked; after any other outcome the only call is the finalization, with no
termination registration and no release. -/
theorem daemon_target_namespace_discovery (env : Daemon.Env)
    (hinit : env.tool_init_rc = PMIX_SUCCESS)
    (hreg : env.default_reg_status = PMIX_SUCCESS) :
    (env.debug_job_rc = PMIX_ERR_NOT_FOUND →
      (Daemon.main env).target_namespace = some env.myproc_nspace ∧
      (Daemon.main env).cospawned_namespace = 1) ∧
    (∀ v, env.debug_job_rc = PMIX_SUCCESS →
      env.debug_job_val = some (pmix_value_t.string v) →
      (Daemon.main env).target_namespace = some v ∧
      (Daemon.main env).cospawned_namespace = 0) ∧
    (env.debug_job_rc ≠ PMIX_ERR_NOT_FOUND →
      (env.debug_job_rc ≠ PMIX_SUCCESS ∨
        ∀ v, env.debug_job_val ≠ some (pmix_value_t.string v)) →
      (Daemon.main env).calls =
        [Daemon.Call.register_default, Daemon.Call.get_debug_job,
          Daemon.Call.tool_finalize] ∧
      Daemon.Call.register_termination ∉ (Daemon.main env).calls ∧
      Daemon.Call.notify_release ∉ (Daemon.main env).calls) := by
  refine ⟨?_, ?_, ?_⟩
  · intro h
    unfold Daemon.main
    simp only [hinit, hreg, h, ne_eq, not_true_eq_false, if_false, if_true]
    exact daemon_main_rest_target _ _ _ _
  · intro v h hv
    have hne : ¬ (PMIX_ERR_NOT_FOUND = PMIX_SUCCESS) := by decide
    unfold Daemon.main
    simp only [hinit, hreg, h, hv, hne, ne_eq, not_true_eq_false, if_false]
    exact daemon_main_rest_target _ _ _ _
  · intro hnf hother
    have hnf2 : ¬ (PMIX_ERR_NOT_FOUND = env.debug_job_rc) := fun h => hnf h.symm
    have hc : (Daemon.main env).calls =
        [Daemon.Call.register_default, Daemon.Call.get_debug_job,
          Daemon.Call.tool_finalize] := by
      unfold Daemon.main
      simp only [hinit, hreg, hnf2, ne_eq, not_true_eq_false, if_false]
      by_cases hs : env.debug_job_rc = PMIX_SUCCESS
      · simp only [hs, not_true_eq_false, if_false]
        rcases hother with h | h
        · exact absurd hs h
        · split
          · rename_i v hv
            exact absurd hv (h v)
          · rfl
      · simp only [hs, not_false_eq_true, if_true]
        rfl
    rw [hc]
    exact ⟨rfl, by decide, by decide⟩

/-- Witness of C16: the lookup reports not-found, then a lookup that fails
with another status. -/
theorem daemon_target_namespace_discovery_witness :
    ((Daemon.main (daemon_env_lookup PMIX_ERR_NOT_FOUND)).target_namespace
        = some "dmn".toList ∧
     (Daemon.main (daemon_env_lookup PMIX_ERR_NOT_FOUND)).cospawned_namespace = 1) ∧
    (Daemon.main (daemon_env_lookup PMIX_ERR_BAD_PARAM)).calls =
      [Daemon.Call.register_default, Daemon.Call.get_debug_job,
        Daemon.Call.tool_finalize] :=
  ⟨(daemon_target_namespace_discovery (daemon_env_lookup PMIX_ERR_NOT_FOUND) rfl rfl).1 rfl,
   ((daemon_target_namespace_discovery (daemon_env_lookup PMIX_ERR_BAD_PARAM) rfl rfl).2.2
      (by decide) (Or.inl (by decide))).1⟩

/-- With a completion callback, `release_fn` of `daemon.c` leaves the memory
as it was on an event of another namespace and only calls the callback. -/
theorem daemon_release_fn_ignores_with_cbfunc (target : CStr) (heap : Nat → myrel_t)
    (e : Event) (hs : e.source ≠ target) (hcb : e.cbfunc = true) :
    Daemon.release_fn target heap e = (heap, [Effect.cbfunc PMIX_EVENT_ACTION_COMPLETE]) := by
  have hk : strcmp_eq target e.source = false := by
    unfold strcmp_eq
    rw [beq_eq_false_iff_ne]
    exact fun h => hs h.symm
  unfold Daemon.release_fn
  simp [hk, hcb]

/-- C17, the code at the failing input: with target namespace `app`, a
termination notice from namespace `old` that carries the tracker and the exit
code 7 and comes without completion callback releases the gate of the tracker
and stores the exit code. -/
theorem daemon_release_fn_without_cbfunc_not_ignored :
    stale_event_no_cbfunc.source ≠ "app".toList ∧
    (fresh_heap 0).lock.active = true ∧
    ((Daemon.release_fn "app".toList fresh_heap stale_event_no_cbfunc).1 0).lock.active
      = false ∧
    ((Daemon.release_fn "app".toList fresh_heap stale_event_no_cbfunc).1 0).exit_code_given
      = true ∧
    ((Daemon.release_fn "app".toList fresh_heap stale_event_no_cbfunc).1 0).exit_code = 7 ∧
    (Daemon.release_fn "app".toList fresh_heap stale_event_no_cbfunc).2
      = [Effect.broadcast 0] := by
  decide

/-! ## The query callbacks -/

theorem take_set_succ (dst : List pmix_info_t) :
    ∀ (n : Nat) (a : pmix_info_t), n < dst.length →
      (dst.set n a).take (n + 1) = dst.take n ++ [a] := by
  induction dst with
  | nil => intro n a h; simp at h
  | cons d rest ih =>
    intro n a h
    cases n with
    | zero => simp
    | succ k =>
      have hk : k < rest.length := by simpa using h
      simp [List.set, List.take, ih k a hk]

theorem xfer_loop_spec (src : List pmix_info_t) :
    ∀ (n : Nat) (dst : List pmix_info_t), dst.length = n + src.length →
      xfer_loop n src dst = dst.take n ++ src := by
  induction src with
  | nil =>
    intro n dst h
    have h2 : dst.length ≤ n := by simp at h; omega
    simp [xfer_loop, List.take_of_length_le h2]
  | cons i rest ih =>
    intro n dst h
    have hn : n < dst.length := by simp at h; omega
    have hl : (dst.set n (PMIX_INFO_XFER i)).length = (n + 1) + rest.length := by
      simp at h ⊢; omega
    rw [xfer_loop, ih (n + 1) _ hl, take_set_succ dst n _ hn]
    simp [PMIX_INFO_XFER]

/-- The copy loop over cleared entries yields the delivered entries, in
order. -/
theorem xfer_loop_copies (items : List pmix_info_t) :
    xfer_loop 0 items (PMIX_INFO_CREATE items.length) = items := by
  have h : (PMIX_INFO_CREATE items.length).length = 0 + items.length := by
    simp [PMIX_INFO_CREATE]
  rw [xfer_loop_spec items 0 _ h]
  simp

/-- C19: after `query_cbfunc` of `direct.c` and after `cbfunc` of
`examples/debugger.c`, called with status `s` and the delivered items, the
result has status `s`, its gate is released, the library's release function
has been called once when one was supplied (and not otherwise), and for a
non-empty delivery the stored items are the delivered ones in delivery order
with `ninfo` their number, while for an empty delivery the stored items and
`ninfo` are what the caller had initialised. -/
theorem query_callbacks_copy_answer (s : Int) (items : List pmix_info_t) (rel : Bool)
    (mq : myquery_data_t) (dq : Debugger.myquery_data_t) :
    ((query_cbfunc s items rel mq).1.status = s ∧
     (query_cbfunc s items rel mq).1.lock.active = false ∧
     (query_cbfunc s items rel mq).1.info = (if 0 < items.length then some items else mq.info) ∧
     (query_cbfunc s items rel mq).1.ninfo
        = (if 0 < items.length then items.length else mq.ninfo) ∧
     (query_cbfunc s items rel mq).2.count QueryCall.release_fn = (if rel then 1 else 0) ∧
     (query_cbfunc s items rel mq).2.count QueryCall.broadcast = 1) ∧
    ((Debugger.cbfunc s items rel dq).1.status = s ∧
     (Debugger.cbfunc s items rel dq).1.lock.active = false ∧
     (Debugger.cbfunc s items rel dq).1.info
        = (if 0 < items.length then some items else dq.info) ∧
     (Debugger.cbfunc s items rel dq).1.ninfo
        = (if 0 < items.length then items.length else dq.ninfo) ∧
     (Debugger.cbfunc s items rel dq).2.count QueryCall.release_fn = (if rel then 1 else 0) ∧
     (Debugger.cbfunc s items rel dq).2.count QueryCall.broadcast = 1) := by
  unfold query_cbfunc Debugger.cbfunc
  simp only [xfer_loop_copies]
  refine ⟨⟨?_, ?_, ?_, ?_, ?_, ?_⟩, ⟨?_, ?_, ?_, ?_, ?_, ?_⟩⟩ <;>
    first | trivial | rfl | (cases rel <;> decide)

/-! ## The server side of the query -/

theorem sample_keys_loop (q : Server.pmix_query_t) (n : Nat) :
    ∀ (results : List pmix_info_t) (m : Nat),
      Server.keys_loop sample_tables q
          (List.replicate n PMIX_QUERY_SPAWN_SUPPORT ++ ["pmix.qry.unknown".toList]) results m
        = (results ++ List.replicate n (spawn_item "pmix.host,pmix.cospawn".toList), m, none) := by
  induction n with
  | zero =>
    intro results m
    have hb : sample_tables.branch q "pmix.qry.unknown".toList = Server.KeyResult.nothing := by
      show (if "pmix.qry.unknown".toList = PMIX_QUERY_SPAWN_SUPPORT then
          Server.KeyResult.item (spawn_item "pmix.host,pmix.cospawn".toList)
        else Server.KeyResult.nothing) = Server.KeyResult.nothing
      rw [if_neg (by decide)]
    simp only [List.replicate_zero, List.nil_append, List.append_nil, Server.keys_loop, hb]
  | succ k ih =>
    intro results m
    have hb : sample_tables.branch q PMIX_QUERY_SPAWN_SUPPORT
        = Server.KeyResult.item (spawn_item "pmix.host,pmix.cospawn".toList) := by
      show (if PMIX_QUERY_SPAWN_SUPPORT = PMIX_QUERY_SPAWN_SUPPORT then
          Server.KeyResult.item (spawn_item "pmix.host,pmix.cospawn".toList)
        else Server.KeyResult.nothing)
        = Server.KeyResult.item (spawn_item "pmix.host,pmix.cospawn".toList)
      rw [if_pos rfl]
    rw [List.replicate_succ, List.cons_append, Server.keys_loop, hb]
    simp only
    rw [ih, List.append_assoc]
    rfl

/-- With `ret` still at the success status, the block at `done` reports the
partial-success status exactly when the number of results is positive and
below `cd->ninfo`; the number of requested keys does not enter. -/
theorem query_done_partial_iff (results : List pmix_info_t) (c : Nat) :
    (Server.query_done PMIX_SUCCESS results c).1 = PMIX_QUERY_PARTIAL_SUCCESS ↔
      0 < results.length ∧ results.length < c := by
  unfold Server.query_done
  rw [if_pos rfl]
  by_cases h0 : 0 = results.length
  · rw [if_pos h0]
    exact ⟨fun h => absurd h (by decide), fun h => by omega⟩
  · rw [if_neg h0]
    by_cases hc : results.length < c
    · rw [if_pos hc]
      exact ⟨fun _ => ⟨by omega, hc⟩, fun _ => rfl⟩
    · rw [if_neg hc]
      exact ⟨fun h => absurd (show PMIX_SUCCESS = PMIX_QUERY_PARTIAL_SUCCESS from h)
        (by decide), fun h => absurd h.2 hc⟩

/-- C20, the code at failing inputs: whatever value `c` the member
`cd->ninfo` holds, a request of `c + 2` keys of which all but one produce an
item (for `c = 0`: two keys, one populated entry) is answered with the
success status and `c + 1` items, not with the partial-success status. -/
theorem query_reports_success_for_partial_answer (c : Nat) :
    Server.requested_keys (partial_request c) = c + 2 ∧
    Server.pmix_server_query_fn sample_tables c (some (partial_request c)) true 2
      = (PMIX_SUCCESS, some (PMIX_SUCCESS,
          List.replicate (c + 1) (spawn_item "pmix.host,pmix.cospawn".toList))) ∧
    PMIX_SUCCESS ≠ PMIX_QUERY_PARTIAL_SUCCESS := by
  refine ⟨?_, ?_, by decide⟩
  · simp [Server.requested_keys, partial_request]
  · have hk := sample_keys_loop
      { keys := List.replicate (c + 1) PMIX_QUERY_SPAWN_SUPPORT ++ ["pmix.qry.unknown".toList],
        qualifiers := [] } (c + 1) [] 0
    have hq : sample_tables.qualifiers
        { keys := List.replicate (c + 1) PMIX_QUERY_SPAWN_SUPPORT ++
            ["pmix.qry.unknown".toList],
          qualifiers := [] } = none := rfl
    have hr : sample_tables.requestor_ok = true := rfl
    unfold Server.pmix_server_query_fn Server._query partial_request
    simp only [hr, if_true, Server.queries_loop, List.get?, hq, hk, List.nil_append,
      Option.map_some']
    unfold Server.query_done
    simp

/-! ## The handlers of `examples/debugger.c` and the default handler of `direct.c` -/

/-- C21, counterexample: a tracker holds the exit code 3 with
`exit_code_given = true`; after a termination event for it that supplies the
exit code 7, `release_fn` of `examples/debugger.c` and `release_fn` of
`daemon.c` both have stored 7. -/
theorem release_fn_overwrites_exit_code :
    (debugger_heap_with_code 0).exit_code_given = true ∧
    ((Debugger.release_fn debugger_heap_with_code PMIX_ERR_JOB_TERMINATED
      (termination_with_code "app".toList 0 7)).1 0).exit_code = 7 ∧
    (heap_with_code 0).exit_code_given = true ∧
    ((Daemon.release_fn "app".toList heap_with_code
      (termination_with_code "app".toList 0 7)).1 0).exit_code = 7 := by
  decide

/-- C21 as amended: in `release_fn` of `examples/debugger.c`, for an event
status other than launcher-ready, and in `release_fn` of `daemon.c`, for an
event whose source is the target namespace, an event that carries the tracker
and supplies an exit code stores that code, whatever was stored before, and an
event that supplies none leaves the stored code and `exit_code_given` as they
were.  An event with the launcher-ready status in `examples/debugger.c`
leaves them as they were, and so does, in `daemon.c`, an event of another
namespace that comes with a completion callback: it changes no tracker. -/
theorem release_fn_keeps_last_exit_code (dheap : Nat → Debugger.myrel_t)
    (heap : Nat → myrel_t) (status : Int) (target : CStr) (e : Event) (p : Nat)
    (hc : carries p e) :
    ((scan_info e.info).found = true → status ≠ PMIX_LAUNCHER_READY →
      ((Debugger.release_fn dheap status e).1 p).exit_code = (scan_info e.info).exit_code ∧
      ((Debugger.release_fn dheap status e).1 p).exit_code_given = true) ∧
    ((scan_info e.info).found = false ∨ status = PMIX_LAUNCHER_READY →
      ((Debugger.release_fn dheap status e).1 p).exit_code = (dheap p).exit_code ∧
      ((Debugger.release_fn dheap status e).1 p).exit_code_given
        = (dheap p).exit_code_given) ∧
    ((scan_info e.info).found = true → e.source = target →
      ((Daemon.release_fn target heap e).1 p).exit_code = (scan_info e.info).exit_code ∧
      ((Daemon.release_fn target heap e).1 p).exit_code_given = true) ∧
    ((scan_info e.info).found = false → e.source = target →
      ((Daemon.release_fn target heap e).1 p).exit_code = (heap p).exit_code ∧
      ((Daemon.release_fn target heap e).1 p).exit_code_given = (heap p).exit_code_given) ∧
    (e.source ≠ target → e.cbfunc = true → (Daemon.release_fn target heap e).1 = heap) := by
  unfold carries at hc
  have hk : ∀ t : CStr, e.source = t → strcmp_eq t e.source = true := by
    intro t ht
    unfold strcmp_eq
    rw [ht]
    simp
  refine ⟨?_, ?_, ?_, ?_, ?_⟩
  · intro hf hs
    have hs2 : ¬ PMIX_LAUNCHER_READY = status := fun h => hs h.symm
    unfold Debugger.release_fn
    simp [hc, hf, hs2]
  · intro h
    unfold Debugger.release_fn
    rcases h with hf | hs
    · simp [hc, hf]
    · simp [hc, hs]
  · intro hf ht
    unfold Daemon.release_fn Daemon.release_fn_rest
    simp [hc, hf, hk target ht]
  · intro hf ht
    unfold Daemon.release_fn Daemon.release_fn_rest
    simp [hc, hf, hk target ht]
  · intro hs hcb
    rw [daemon_release_fn_ignores_with_cbfunc target heap e hs hcb]

/-- Witness of C21 as amended: the event with exit code 7 on a tracker that
holds 3, and in `daemon.c` the same event from the namespace `old`, which
leaves the 3. -/
theorem release_fn_keeps_last_exit_code_witness :
    ((Debugger.release_fn debugger_heap_with_code PMIX_ERR_JOB_TERMINATED
      (termination_with_code "app".toList 0 7)).1 0).exit_code = 7 ∧
    ((Daemon.release_fn "app".toList heap_with_code
      (termination_with_code "app".toList 0 7)).1 0).exit_code = 7 ∧
    (Daemon.release_fn "app".toList heap_with_code
      (termination_with_code "old".toList 0 7)).1 = heap_with_code :=
  ⟨((release_fn_keeps_last_exit_code debugger_heap_with_code heap_with_code
      PMIX_ERR_JOB_TERMINATED "app".toList (termination_with_code "app".toList 0 7) 0
      (by decide)).1 (by decide) (by decide)).1,
   ((release_fn_keeps_last_exit_code debugger_heap_with_code heap_with_code
      PMIX_ERR_JOB_TERMINATED "app".toList (termination_with_code "app".toList 0 7) 0
      (by decide)).2.2.1 (by decide) rfl).1,
   (release_fn_keeps_last_exit_code debugger_heap_with_code heap_with_code
      PMIX_ERR_JOB_TERMINATED "app".toList (termination_with_code "old".toList 0 7) 0
      (by decide)).2.2.2.2 (by decide) rfl⟩

theorem scan_foldl_lock (info : List pmix_info_t) :
    ∀ s : Scan,
      (info.foldl scan_step s).lock =
        info.foldl
          (fun lock i =>
            if PMIX_CHECK_KEY i PMIX_EVENT_RETURN_OBJECT then i.value.data_ptr else lock)
          s.lock := by
  induction info with
  | nil => intro s; rfl
  | cons i rest ih =>
    intro s
    rw [List.foldl_cons, List.foldl_cons, ih]
    congr 1
    unfold scan_step PMIX_CHECK_KEY
    split_ifs <;> rfl

/-- The loop of `notification_fn` finds the object that the scan of
`release_fn` finds. -/
theorem find_return_object_eq_scan (info : List pmix_info_t) :
    find_return_object info = (scan_info info).lock := by
  unfold find_return_object scan_info
  rw [scan_foldl_lock]
  rfl

theorem count_cbfunc_call (c : Bool) (s t : Int) :
    (call_cbfunc c s).count (Effect.cbfunc t) = if c = true ∧ t = s then 1 else 0 := by
  unfold call_cbfunc
  cases c
  · simp
  · by_cases h : t = s
    · simp [h]
    · have h2 : ¬ (Effect.cbfunc s = Effect.cbfunc t) := by
        intro he
        injection he with he
        exact h he.symm
      simp [h, List.count_cons, h2]

/-- C24: in `notification_fn` of `direct.c`, an event with the unreachable or
the lost-connection status that carries the tracker makes the gate of that
tracker inactive whatever the count (which stays as it was), sets `exit_code`
to the status and `exit_code_given`, and touches no other tracker; with any
other status, or without a return object, nothing changes; and in every case
the completion callback is called exactly once, with the success status, when
it is supplied, and not at all otherwise. -/
theorem notification_fn_releases_on_lost_connection (w : World) (status : Int) (e : Event) :
    (∀ p, (status = PMIX_ERR_UNREACH ∨ status = PMIX_ERR_LOST_CONNECTION_TO_SERVER) →
      carries p e →
      ((notification_fn w status e).1.heap p).lock.active = false ∧
      ((notification_fn w status e).1.heap p).lock.count = (w.heap p).lock.count ∧
      ((notification_fn w status e).1.heap p).exit_code = status ∧
      ((notification_fn w status e).1.heap p).exit_code_given = true ∧
      ∀ q, q ≠ p → (notification_fn w status e).1.heap q = w.heap q) ∧
    (((status ≠ PMIX_ERR_UNREACH ∧ status ≠ PMIX_ERR_LOST_CONNECTION_TO_SERVER) ∨
        (scan_info e.info).lock = none) →
      (notification_fn w status e).1 = w) ∧
    (∀ t, (notification_fn w status e).2.count (Effect.cbfunc t) =
      if e.cbfunc = true ∧ t = PMIX_SUCCESS then 1 else 0) := by
  refine ⟨?_, ?_, ?_⟩
  · intro p hs hc
    unfold carries at hc
    have hcond : PMIX_ERR_UNREACH = status ∨ PMIX_ERR_LOST_CONNECTION_TO_SERVER = status := by
      rcases hs with h | h
      · exact Or.inl h.symm
      · exact Or.inr h.symm
    unfold notification_fn
    rw [if_pos hcond, find_return_object_eq_scan, hc]
    simp only [Function.update_same]
    refine ⟨?_, ?_, ?_, ?_, ?_⟩
    · rfl
    · rfl
    · trivial
    · trivial
    · intro q hq
      exact Function.update_noteq hq _ _
  · intro h
    unfold notification_fn
    rcases h with ⟨h1, h2⟩ | h
    · have hcond : ¬ (PMIX_ERR_UNREACH = status ∨
          PMIX_ERR_LOST_CONNECTION_TO_SERVER = status) := by
        intro hc
        rcases hc with hc | hc
        · exact h1 hc.symm
        · exact h2 hc.symm
      rw [if_neg hcond]
    · rw [find_return_object_eq_scan, h]
      split_ifs <;> rfl
  · intro t
    unfold notification_fn
    rw [find_return_object_eq_scan]
    by_cases hcond : PMIX_ERR_UNREACH = status ∨ PMIX_ERR_LOST_CONNECTION_TO_SERVER = status
    · rw [if_pos hcond]
      cases hl : (scan_info e.info).lock with
      | none => exact count_cbfunc_call e.cbfunc PMIX_SUCCESS t
      | some p =>
        simp only [List.count_cons]
        rw [count_cbfunc_call]
        simp
    · rw [if_neg hcond]
      exact count_cbfunc_call e.cbfunc PMIX_SUCCESS t

/-- Witness of C24: the lost-connection event with the tracker at count 2. -/
theorem notification_fn_releases_on_lost_connection_witness :
    ((notification_fn sample_world PMIX_ERR_LOST_CONNECTION_TO_SERVER
      (termination "srv".toList 0)).1.heap 0).lock.active = false ∧
    (notification_fn sample_world PMIX_ERR_JOB_TERMINATED (termination "srv".toList 0)).1
      = sample_world :=
  ⟨((notification_fn_releases_on_lost_connection sample_world
      PMIX_ERR_LOST_CONNECTION_TO_SERVER (termination "srv".toList 0)).1 0 (Or.inr rfl)
      (by decide)).1,
   (notification_fn_releases_on_lost_connection sample_world PMIX_ERR_JOB_TERMINATED
      (termination "srv".toList 0)).2.1 (Or.inl ⟨by decide, by decide⟩)⟩

/-! ## The race on the SeparateSpawn path -/

/-- C22, the code at the failing schedule: the application (namespace `app`)
terminates after its registration and before `spawn_debugger`.  The count
falls from 1 to 0 and the gate is released; `spawn_debugger` raises the count
to 1 and leaves the gate inactive; the final wait returns, and the termination
of the daemon has not been delivered. -/
theorem final_wait_returns_before_daemon_termination :
    (Sched.run 0 (sample_env []) (termination "app".toList 0) (termination "dmn".toList 0)
        (Sched.init fresh_heap "app".toList) (early_termination_schedule.take 2)).map
      (Sched.view 0) = some (Pc.app_registered, true, false, false, 0) ∧
    (Sched.run 0 (sample_env []) (termination "app".toList 0) (termination "dmn".toList 0)
        (Sched.init fresh_heap "app".toList) (early_termination_schedule.take 3)).map
      (Sched.view 0) = some (Pc.waiting, true, false, false, 1) ∧
    (Sched.run 0 (sample_env []) (termination "app".toList 0) (termination "dmn".toList 0)
        (Sched.init fresh_heap "app".toList) early_termination_schedule).map
      (Sched.view 0) = some (Pc.finished, true, false, false, 1) := by
  refine ⟨?_, ?_, ?_⟩ <;> rfl

/-! ## The directive arrays of `examples/debugger.c` -/

/-- C23, the code at every input: of the seven load statements of
`spawn_debugger` of `examples/debugger.c` two write slot 1, so the array of
six passed to the spawn holds the target namespace in slot 1 and has no entry
with the key `PMIX_DEBUGGER_DAEMONS`; the array of seven of `spawn_debugger`
of `direct.c` has one. -/
theorem spawn_debugger_dinfo_lacks_daemon_marker (appspace : CStr) :
    loads_of_slot 1 (Debugger.spawn_debugger_loads appspace) = 2 ∧
    Debugger.spawn_debugger_dinfo appspace =
      some [info_string PMIX_MAPBY "ppr:1:node".toList, info_string PMIX_DEBUG_JOB appspace,
        info_flag PMIX_NOTIFY_COMPLETION, info_flag PMIX_DEBUG_WAITING_FOR_NOTIFY,
        info_flag PMIX_FWD_STDOUT, info_flag PMIX_FWD_STDERR] ∧
    has_key PMIX_DEBUGGER_DAEMONS
      [info_string PMIX_MAPBY "ppr:1:node".toList, info_string PMIX_DEBUG_JOB appspace,
        info_flag PMIX_NOTIFY_COMPLETION, info_flag PMIX_DEBUG_WAITING_FOR_NOTIFY,
        info_flag PMIX_FWD_STDOUT, info_flag PMIX_FWD_STDERR] = false ∧
    has_key PMIX_DEBUGGER_DAEMONS (daemon_spawn_info appspace) = true := by
  refine ⟨rfl, rfl, ?_, ?_⟩
  · unfold has_key info_string info_flag
    simp only [List.any_cons, List.any_nil, Bool.or_false]
    decide
  · unfold has_key daemon_spawn_info info_string info_flag
    simp only [List.any_cons, List.any_nil, Bool.or_false]
    decide

/-- C25, the code at every input: the launch-directive array of Variant B is
created with `ninfo = 3`, and the fourth load statement, the application
directives, writes slot 3, which is outside it; the first three statements
fill the array, so the array handed to the notify call has no entry with the
key `PMIX_DEBUG_APP_DIRECTIVES`. -/
theorem launch_directives_load_outside_array (clientspace : CStr) :
    (Debugger.launch_directive_loads clientspace).map (fun l => l.1) = [0, 1, 2, 3] ∧
    ¬ (3 < Debugger.launch_directive_ninfo) ∧
    Debugger.launch_directives clientspace = none ∧
    load_all (PMIX_INFO_CREATE Debugger.launch_directive_ninfo)
        ((Debugger.launch_directive_loads clientspace).take 3) =
      some [{ key := PMIX_EVENT_CUSTOM_RANGE, value := pmix_value_t.proc clientspace 0 },
        info_flag PMIX_EVENT_NON_DEFAULT,
        { key := PMIX_DEBUG_JOB_DIRECTIVES, value := pmix_value_t.data_array 2 false }] := by
  refine ⟨rfl, by decide, rfl, rfl⟩

end Prrte
